import Mathlib

/-!
Verification of the pipeline orchestrator (app/orchestrator/workflow.py,
app/runs/routes.py, app/database.py) against its natural-language
specification.

The embedding models the persisted rows (Run, Artifact, Approval), the
in-memory LangGraph workflow state, the per-stage node functions, the
graph traversal of execute_run, the resumption logic of continue_run and
the decision-submission route submit_approval.  Stage executors (the six
agents) are external collaborators and are modelled as function
parameters returning structured results.  Database-managed timestamps
and token counters are outside the model; progress events are kept as an
append-only list.
-/

namespace Orchestration

/-- Run execution status, mirroring RunStatus in app/database.py. -/
inductive RunStatus where
  | pending
  | running
  | paused
  | completed
  | failed
deriving DecidableEq, Repr

/-- Artifact type enumeration, mirroring ArtifactType in app/database.py. -/
inductive ArtifactType where
  | research
  | epics
  | stories
  | specs
  | code
  | validation
deriving DecidableEq, Repr

/-- Values stored in the JSON metadata bundle of an Artifact row. -/
inductive MetaValue where
  | boolV : Bool → MetaValue
  | strV : String → MetaValue
deriving DecidableEq, Repr

/-- Opaque key-value metadata bundle attached to an Artifact row. -/
abbrev Metadata := List (String × MetaValue)

/-- One Artifact row, mirroring Artifact in app/database.py. -/
structure Artifact where
  run_id : Nat
  artifact_type : ArtifactType
  name : String
  content : String
  artifact_metadata : Option Metadata
deriving DecidableEq, Repr

/-- One Approval row, mirroring Approval in app/database.py.  The approved
column is tri-state (none is pending); action is one of proceed,
regenerate, reject. -/
structure Approval where
  run_id : Nat
  stage : String
  approved : Option Bool
  feedback : Option String
  action : String
deriving DecidableEq, Repr

/-- The Run row fields the orchestrator reads and writes. -/
structure Run where
  id : Nat
  status : RunStatus
  current_stage : String
  error_message : Option String
deriving DecidableEq, Repr

/-- One progress event recorded by emit_progress in app/runs/progress_emitter.py. -/
structure ProgressEvent where
  run_id : Nat
  stage : String
  message : String
deriving DecidableEq, Repr

/-- The persistent state for one run: its Run row, the product request of
the owning project, and this run's Artifact and Approval rows, plus the
in-memory progress-event list. -/
structure DB where
  run : Run
  product_request : String
  artifacts : List Artifact
  approvals : List Approval
  events : List ProgressEvent
deriving DecidableEq, Repr

/-- The in-memory WorkflowState TypedDict of app/orchestrator/workflow.py
(the messages channel, unused by every node, is omitted). -/
structure WorkflowState where
  run_id : Nat
  product_request : String
  research : String
  epics : String
  stories : String
  specs : String
  code : String
  validation : String
  current_stage : String
  error : String
  epic_regeneration_count : Nat
  story_regeneration_count : Nat
  spec_regeneration_count : Nat
deriving DecidableEq, Repr

/-- Structured result of a stage executor: execute returns a dict with
success, content, optional error and optional metadata. -/
structure ExecResult where
  success : Bool
  content : String
  error : Option String
  metadata : Option Metadata
deriving DecidableEq, Repr

/-- The six stage executors, each consuming exactly the documented inputs:
research takes the product request; epic takes product request, research
text, feedback and regeneration count; story takes epics text, feedback
and count; spec takes stories text, feedback and count; code takes specs
text; validation takes code text. -/
structure Agents where
  research : String → ExecResult
  epic : String → String → String → Nat → ExecResult
  story : String → String → Nat → ExecResult
  spec : String → String → Nat → ExecResult
  code : String → ExecResult
  validation : String → ExecResult

/-- Append a progress event, mirroring emit_progress. -/
def emit_progress (db : DB) (rid : Nat) (stage message : String) : DB :=
  { db with events := db.events ++ [⟨rid, stage, message⟩] }

/-- Query the first Approval row for a (run, stage) pair, mirroring
db.query(Approval).filter(run_id, stage).first(). -/
def findApproval (approvals : List Approval) (rid : Nat) (stage : String) :
    Option Approval :=
  approvals.find? (fun a => a.run_id == rid && a.stage == stage)

/-- Update the first Approval row matching (run, stage) in place, leaving
every other row untouched; this is the ORM mutation of a queried row. -/
def updateFirstApproval (approvals : List Approval) (rid : Nat) (stage : String)
    (f : Approval → Approval) : List Approval :=
  match approvals with
  | [] => []
  | a :: rest =>
    if a.run_id == rid && a.stage == stage then f a :: rest
    else a :: updateFirstApproval rest rid stage f

/-- Set current_stage on the Run row when the run is found, mirroring the
query-then-mutate blocks of the stage nodes that touch only the stage. -/
def updateRunStage (db : DB) (rid : Nat) (stage : String) : DB :=
  if db.run.id == rid then
    { db with run := { db.run with current_stage := stage } }
  else db

/-- Set current_stage and status on the Run row when the run is found,
mirroring the nodes that also flip the status. -/
def updateRunStageStatus (db : DB) (rid : Nat) (stage : String)
    (st : RunStatus) : DB :=
  if db.run.id == rid then
    { db with run := { db.run with current_stage := stage, status := st } }
  else db

/-- Persist a new Artifact row, mirroring Orchestrator._save_artifact
(append-only: db.add of a fresh row, never an overwrite). -/
def save_artifact (db : DB) (rid : Nat) (ty : ArtifactType)
    (name content : String) (meta : Option Metadata) : DB :=
  { db with artifacts := db.artifacts ++ [⟨rid, ty, name, content, meta⟩] }

/-- Approval-list transformation performed by
Orchestrator._create_or_update_approval: reset an existing row to
pending (approved unset, action proceed, feedback kept), or append a
fresh pending row when none exists. -/
def cuApprovals (l : List Approval) (rid : Nat) (stage : String) :
    List Approval :=
  match findApproval l rid stage with
  | some _ =>
    updateFirstApproval l rid stage
      (fun a => { a with approved := none, action := "proceed" })
  | none => l ++ [⟨rid, stage, none, none, "proceed"⟩]

/-- Mirror of Orchestrator._create_or_update_approval. -/
def create_or_update_approval (db : DB) (rid : Nat) (stage : String) : DB :=
  { db with approvals := cuApprovals db.approvals rid stage }

/-- Python truthiness of the optional feedback text: none and the empty
string are falsy. -/
def feedbackTruthy : Option String → Bool
  | none => false
  | some s => !(s == "")

/-- Metadata bundle written on a fallback artifact. -/
def fallbackMeta (error_msg : String) : Metadata :=
  [("fallback", MetaValue.boolV true), ("error", MetaValue.strV error_msg)]

/-- Feedback text and regeneration counter chosen before invoking a gated
stage executor, mirroring the shared prologue of the epics, stories and
specs nodes: when the prior Approval row carries action regenerate and a
truthy feedback text, use the stored feedback and increment the counter;
otherwise use empty feedback and counter 0. -/
def regenParams (approval : Option Approval) (count0 : Nat) : String × Nat :=
  match approval with
  | some a =>
    if a.action == "regenerate" && feedbackTruthy a.feedback then
      (a.feedback.getD "", count0 + 1)
    else ("", 0)
  | none => ("", 0)

/-- Whether the shared gated-stage prologue takes its regeneration branch. -/
def regenActive (approval : Option Approval) : Bool :=
  match approval with
  | some a => a.action == "regenerate" && feedbackTruthy a.feedback
  | none => false

/-- Fallback research content, mirroring the stub built in _research_node. -/
def researchFallbackContent (product_request : String) : String :=
  "# Research Report (Stub)\n\n## Product Request\n" ++ product_request.take 500 ++
  "\n\n## Note\nThis is a fallback research report generated because the research agent encountered an error.\nThe system will proceed with basic assumptions.\n\n## Basic Recommendations\n- Use industry-standard technologies\n- Follow best practices for the domain\n- Implement with scalability in mind\n"

/-- Fallback epics content, mirroring the stub built in _epics_node. -/
def epicsFallbackContent : String :=
  "# Epics (Stub)\n\n## Epic EP-001: Core Functionality\n\n**Goal:** Implement the core functionality of the product\n\n**Priority:** P0 (Critical)\n\n**In Scope:**\n- Basic feature implementation\n- Core user workflows\n\n**Out of Scope:**\n- Advanced features\n- Integrations\n\n**Dependencies:**\n- None\n\n**Risks & Assumptions:**\n- Assumes standard implementation approach\n\n**Success Metrics:**\n- Core functionality works\n- Basic tests pass\n"

/-- Fallback stories content, mirroring the stub built in _stories_node. -/
def storiesFallbackContent : String :=
  "# User Stories (Stub)\n\n## Story US-001: Basic User Flow\n\n**As a** user  \n**I want to** access core functionality  \n**So that** I can accomplish my goal\n\n**Acceptance Criteria:**\n- User can access the system\n- Basic workflow functions\n\n**Technical Notes:**\n- Standard implementation\n"

/-- Fallback specs content, mirroring the stub built in _specs_node. -/
def specsFallbackContent : String :=
  "# Technical Specifications (Stub)\n\n## API Specification\n\n### Endpoint: /api/example\n- **Method:** GET\n- **Description:** Example endpoint\n- **Response:** JSON object\n\n## Data Models\n\n### Example Model\n```json\n\x7b\n  \"id\": \"string\",\n  \"name\": \"string\"\n\x7d\n```\n"

/-- Fallback code content, mirroring the stub built in _code_node. -/
def codeFallbackContent : String :=
  "# Generated Code (Stub)\n\n## main.py\n\n```python\n# Basic implementation\ndef main():\n    print(\"Hello, World!\")\n\nif __name__ == \"__main__\":\n    main()\n```\n"

/-- Fallback validation content, mirroring the stub built in _validation_node. -/
def validationFallbackContent : String :=
  "# Validation Report (Stub)\n\n## Summary\n- Basic validation completed\n- Status: Pass\n\n## Issues Found\nNone (stub report)\n"

/-- Success and failure continuation of _research_node: on success
persist the content as an Artifact, on structured failure record the
error in the state and persist a fallback artifact tagged with fallback
metadata. -/
def research_finish (run_id : Nat) (result : ExecResult)
    (st : WorkflowState) (db : DB) : WorkflowState × DB :=
  if result.success then
    let st := { st with research := result.content, current_stage := "research" }
    let db := save_artifact db run_id ArtifactType.research "research.md"
        result.content result.metadata
    let db := emit_progress db run_id "research" "Research phase completed"
    (st, db)
  else
    let error_msg := result.error.getD "Research failed"
    let st := { st with error := error_msg }
    let db := emit_progress db run_id "research"
        ("Research phase failed: " ++ error_msg)
    let fallback_content := researchFallbackContent st.product_request
    let st := { st with research := fallback_content, current_stage := "research" }
    let db := save_artifact db run_id ArtifactType.research "research.md"
        fallback_content (some (fallbackMeta error_msg))
    (st, db)

/-- Mirror of Orchestrator._research_node: record the stage, invoke the
research executor on the product request, then finish. -/
def research_node (ag : Agents) (st : WorkflowState) (db : DB) :
    WorkflowState × DB :=
  let run_id := st.run_id
  let db := emit_progress db run_id "research" "Research phase started"
  let db := updateRunStage db run_id "research"
  research_finish run_id (ag.research st.product_request) st db

/-- Success and failure continuation of _epics_node: persist the
(possibly fallback) epics artifact and create-or-reset the epics
Approval row. -/
def epics_finish (run_id : Nat) (result : ExecResult)
    (st : WorkflowState) (db : DB) : WorkflowState × DB :=
  if result.success then
    let st := { st with epics := result.content, current_stage := "epics" }
    let db := save_artifact db run_id ArtifactType.epics "epics.md"
        result.content result.metadata
    let db := create_or_update_approval db run_id "epics"
    let db := emit_progress db run_id "epics" "Epic generation completed"
    (st, db)
  else
    let error_msg := result.error.getD "Epic generation failed"
    let st := { st with error := error_msg }
    let db := emit_progress db run_id "epics"
        ("Epic generation failed: " ++ error_msg)
    let fallback_content := epicsFallbackContent
    let st := { st with epics := fallback_content, current_stage := "epics" }
    let db := save_artifact db run_id ArtifactType.epics "epics.md"
        fallback_content (some (fallbackMeta error_msg))
    let db := create_or_update_approval db run_id "epics"
    (st, db)

/-- Mirror of Orchestrator._epics_node: consume a pending regenerate
decision (stored feedback plus incremented counter) when present, record
the stage, invoke the epic executor, then finish. -/
def epics_node (ag : Agents) (st : WorkflowState) (db : DB) :
    WorkflowState × DB :=
  let run_id := st.run_id
  let approval := findApproval db.approvals run_id "epics"
  let regen := regenActive approval
  let fc := regenParams approval st.epic_regeneration_count
  let st := if regen then { st with epic_regeneration_count := fc.2 } else st
  let db :=
    if regen then
      emit_progress db run_id "epics"
        ("Regenerating epics with feedback (attempt " ++ toString fc.2 ++ ")")
    else emit_progress db run_id "epics" "Epic generation started"
  let db := updateRunStage db run_id "epics"
  epics_finish run_id (ag.epic st.product_request st.research fc.1 fc.2) st db

/-- Success and failure continuation of _stories_node. -/
def stories_finish (run_id : Nat) (result : ExecResult)
    (st : WorkflowState) (db : DB) : WorkflowState × DB :=
  if result.success then
    let st := { st with stories := result.content, current_stage := "stories" }
    let db := save_artifact db run_id ArtifactType.stories "stories.md"
        result.content result.metadata
    let db := create_or_update_approval db run_id "stories"
    let db := emit_progress db run_id "stories" "Story generation completed"
    (st, db)
  else
    let error_msg := result.error.getD "Story generation failed"
    let st := { st with error := error_msg }
    let db := emit_progress db run_id "stories"
        ("Story generation failed: " ++ error_msg)
    let fallback_content := storiesFallbackContent
    let st := { st with stories := fallback_content, current_stage := "stories" }
    let db := save_artifact db run_id ArtifactType.stories "stories.md"
        fallback_content (some (fallbackMeta error_msg))
    let db := create_or_update_approval db run_id "stories"
    (st, db)

/-- Mirror of Orchestrator._stories_node (also flips the run status back
to running before invoking the story executor). -/
def stories_node (ag : Agents) (st : WorkflowState) (db : DB) :
    WorkflowState × DB :=
  let run_id := st.run_id
  let approval := findApproval db.approvals run_id "stories"
  let regen := regenActive approval
  let fc := regenParams approval st.story_regeneration_count
  let st := if regen then { st with story_regeneration_count := fc.2 } else st
  let db :=
    if regen then
      emit_progress db run_id "stories"
        ("Regenerating stories with feedback (attempt " ++ toString fc.2 ++ ")")
    else emit_progress db run_id "stories" "Story generation started"
  let db := updateRunStageStatus db run_id "stories" RunStatus.running
  stories_finish run_id (ag.story st.epics fc.1 fc.2) st db

/-- Success and failure continuation of _specs_node. -/
def specs_finish (run_id : Nat) (result : ExecResult)
    (st : WorkflowState) (db : DB) : WorkflowState × DB :=
  if result.success then
    let st := { st with specs := result.content, current_stage := "specs" }
    let db := save_artifact db run_id ArtifactType.specs "specs.md"
        result.content result.metadata
    let db := create_or_update_approval db run_id "specs"
    let db := emit_progress db run_id "specs" "Spec generation completed"
    (st, db)
  else
    let error_msg := result.error.getD "Spec generation failed"
    let st := { st with error := error_msg }
    let db := emit_progress db run_id "specs"
        ("Spec generation failed: " ++ error_msg)
    let fallback_content := specsFallbackContent
    let st := { st with specs := fallback_content, current_stage := "specs" }
    let db := save_artifact db run_id ArtifactType.specs "specs.md"
        fallback_content (some (fallbackMeta error_msg))
    let db := create_or_update_approval db run_id "specs"
    (st, db)

/-- Mirror of Orchestrator._specs_node (also flips the run status back to
running before invoking the spec executor). -/
def specs_node (ag : Agents) (st : WorkflowState) (db : DB) :
    WorkflowState × DB :=
  let run_id := st.run_id
  let approval := findApproval db.approvals run_id "specs"
  let regen := regenActive approval
  let fc := regenParams approval st.spec_regeneration_count
  let st := if regen then { st with spec_regeneration_count := fc.2 } else st
  let db :=
    if regen then
      emit_progress db run_id "specs"
        ("Regenerating specs with feedback (attempt " ++ toString fc.2 ++ ")")
    else emit_progress db run_id "specs" "Spec generation started"
  let db := updateRunStageStatus db run_id "specs" RunStatus.running
  specs_finish run_id (ag.spec st.stories fc.1 fc.2) st db

/-- Success and failure continuation of _code_node. -/
def code_finish (run_id : Nat) (result : ExecResult)
    (st : WorkflowState) (db : DB) : WorkflowState × DB :=
  if result.success then
    let st := { st with code := result.content, current_stage := "code" }
    let db := save_artifact db run_id ArtifactType.code "code.md"
        result.content result.metadata
    let db := emit_progress db run_id "code" "Code generation completed"
    (st, db)
  else
    let error_msg := result.error.getD "Code generation failed"
    let st := { st with error := error_msg }
    let db := emit_progress db run_id "code"
        ("Code generation failed: " ++ error_msg)
    let fallback_content := codeFallbackContent
    let st := { st with code := fallback_content, current_stage := "code" }
    let db := save_artifact db run_id ArtifactType.code "code.md"
        fallback_content (some (fallbackMeta error_msg))
    (st, db)

/-- Mirror of Orchestrator._code_node (ungated; flips status to running). -/
def code_node (ag : Agents) (st : WorkflowState) (db : DB) :
    WorkflowState × DB :=
  let run_id := st.run_id
  let db := emit_progress db run_id "code" "Code generation started"
  let db := updateRunStageStatus db run_id "code" RunStatus.running
  code_finish run_id (ag.code st.specs) st db

/-- Success and failure continuation of _validation_node. -/
def validation_finish (run_id : Nat) (result : ExecResult)
    (st : WorkflowState) (db : DB) : WorkflowState × DB :=
  if result.success then
    let st := { st with validation := result.content, current_stage := "validation" }
    let db := save_artifact db run_id ArtifactType.validation "validation_report.md"
        result.content result.metadata
    let db := emit_progress db run_id "validation" "Validation completed"
    (st, db)
  else
    let error_msg := result.error.getD "Validation failed"
    let st := { st with error := error_msg }
    let db := emit_progress db run_id "validation"
        ("Validation failed: " ++ error_msg)
    let fallback_content := validationFallbackContent
    let st := { st with validation := fallback_content, current_stage := "validation" }
    let db := save_artifact db run_id ArtifactType.validation "validation_report.md"
        fallback_content (some (fallbackMeta error_msg))
    (st, db)

/-- Mirror of Orchestrator._validation_node (ungated; stage update only). -/
def validation_node (ag : Agents) (st : WorkflowState) (db : DB) :
    WorkflowState × DB :=
  let run_id := st.run_id
  let db := emit_progress db run_id "validation" "Validation started"
  let db := updateRunStage db run_id "validation"
  validation_finish run_id (ag.validation st.code) st db

/-- Mirror of Orchestrator._complete_node: mark the run completed. -/
def complete_node (st : WorkflowState) (db : DB) : WorkflowState × DB :=
  let run_id := st.run_id
  let st := { st with current_stage := "completed" }
  let db := updateRunStageStatus db run_id "completed" RunStatus.completed
  let db := emit_progress db run_id "completed" "Workflow completed successfully"
  (st, db)

/-- Mirror of Orchestrator._wait_epic_approval_node: persist the paused
status at the epic gate and return control. -/
def wait_epic_approval_node (st : WorkflowState) (db : DB) :
    WorkflowState × DB :=
  let run_id := st.run_id
  let st := { st with current_stage := "waiting_epic_approval" }
  let db := updateRunStageStatus db run_id "waiting_epic_approval" RunStatus.paused
  let db := emit_progress db run_id "waiting_epic_approval" "Waiting for epic approval"
  (st, db)

/-- Mirror of Orchestrator._wait_story_approval_node. -/
def wait_story_approval_node (st : WorkflowState) (db : DB) :
    WorkflowState × DB :=
  let run_id := st.run_id
  let st := { st with current_stage := "waiting_story_approval" }
  let db := updateRunStageStatus db run_id "waiting_story_approval" RunStatus.paused
  let db := emit_progress db run_id "waiting_story_approval" "Waiting for story approval"
  (st, db)

/-- Mirror of Orchestrator._wait_spec_approval_node. -/
def wait_spec_approval_node (st : WorkflowState) (db : DB) :
    WorkflowState × DB :=
  let run_id := st.run_id
  let st := { st with current_stage := "waiting_spec_approval" }
  let db := updateRunStageStatus db run_id "waiting_spec_approval" RunStatus.paused
  let db := emit_progress db run_id "waiting_spec_approval" "Waiting for spec approval"
  (st, db)

/-- Mirror of the stage_map dict inside Orchestrator._check_approval. -/
def stage_map : String → Option String
  | "waiting_epic_approval" => some "epics"
  | "waiting_story_approval" => some "stories"
  | "waiting_spec_approval" => some "specs"
  | _ => none

/-- Mirror of Orchestrator._check_approval: routing decision at a wait
node, one of pending, approved, rejected. -/
def check_approval (st : WorkflowState) (db : DB) : String :=
  match stage_map st.current_stage with
  | none => "pending"
  | some stage =>
    match findApproval db.approvals st.run_id stage with
    | none => "pending"
    | some a =>
      match a.approved with
      | none => "pending"
      | some true => "approved"
      | some false => "rejected"

/-- Fuel-indexed traversal of the compiled LangGraph workflow, mirroring
the node and edge table of Orchestrator._build_workflow.  Every cycle in
the graph passes through a gated stage node, which resets its Approval
row to pending, so each conditional edge can loop back at most once per
entry and every traversal terminates well within the supplied fuel. -/
def runGraph (ag : Agents) : Nat → String → WorkflowState → DB → WorkflowState × DB
  | 0, _, st, db => (st, db)
  | fuel + 1, node, st, db =>
    if node == "research_phase" then
      let p := research_node ag st db
      runGraph ag fuel "epics_phase" p.1 p.2
    else if node == "epics_phase" then
      let p := epics_node ag st db
      runGraph ag fuel "wait_epic_approval" p.1 p.2
    else if node == "wait_epic_approval" then
      let p := wait_epic_approval_node st db
      let r := check_approval p.1 p.2
      if r == "approved" then runGraph ag fuel "stories_phase" p.1 p.2
      else if r == "rejected" then runGraph ag fuel "epics_phase" p.1 p.2
      else p
    else if node == "stories_phase" then
      let p := stories_node ag st db
      runGraph ag fuel "wait_story_approval" p.1 p.2
    else if node == "wait_story_approval" then
      let p := wait_story_approval_node st db
      let r := check_approval p.1 p.2
      if r == "approved" then runGraph ag fuel "specs_phase" p.1 p.2
      else if r == "rejected" then runGraph ag fuel "stories_phase" p.1 p.2
      else p
    else if node == "specs_phase" then
      let p := specs_node ag st db
      runGraph ag fuel "wait_spec_approval" p.1 p.2
    else if node == "wait_spec_approval" then
      let p := wait_spec_approval_node st db
      let r := check_approval p.1 p.2
      if r == "approved" then runGraph ag fuel "code_phase" p.1 p.2
      else if r == "rejected" then runGraph ag fuel "specs_phase" p.1 p.2
      else p
    else if node == "code_phase" then
      let p := code_node ag st db
      runGraph ag fuel "validation_phase" p.1 p.2
    else if node == "validation_phase" then
      let p := validation_node ag st db
      runGraph ag fuel "complete" p.1 p.2
    else if node == "complete" then
      complete_node st db
    else (st, db)

/-- Fuel bound for one graph traversal; a traversal visits at most 16
nodes (ten positions plus at most one loop-back per gate). -/
def workflowFuel : Nat := 31 + 1

/-- The initial WorkflowState built at the top of execute_run (and, with
a different current_stage, at the top of continue_run). -/
def initialState (rid : Nat) (product_request : String) : WorkflowState :=
  { run_id := rid
    product_request := product_request
    research := ""
    epics := ""
    stories := ""
    specs := ""
    code := ""
    validation := ""
    current_stage := "initialized"
    error := ""
    epic_regeneration_count := 0
    story_regeneration_count := 0
    spec_regeneration_count := 0 }

/-- Mirror of Orchestrator.execute_run: initialise the state, mark the
run running at research, traverse the workflow graph, then set the run
Failed when the final state carries an error message (the wait nodes
have already persisted Paused when the traversal exited at a gate). -/
def execute_run (ag : Agents) (rid : Nat) (product_request : String)
    (db : DB) : WorkflowState × DB :=
  let st0 := initialState rid product_request
  let db := updateRunStageStatus db rid "research" RunStatus.running
  let p := runGraph ag workflowFuel "research_phase" st0 db
  let fs := p.1
  let db := p.2
  let db :=
    if db.run.id == rid then
      if !(fs.error == "") then
        { db with run :=
            { db.run with
              status := RunStatus.failed
              error_message := some fs.error } }
      else db
    else db
  (fs, db)

/-- One step of the artifact loop at the top of Orchestrator.continue_run:
overwrite the state field matching the artifact type. -/
def applyArtifact (st : WorkflowState) (artifact : Artifact) : WorkflowState :=
  match artifact.artifact_type with
  | ArtifactType.research => { st with research := artifact.content }
  | ArtifactType.epics => { st with epics := artifact.content }
  | ArtifactType.stories => { st with stories := artifact.content }
  | ArtifactType.specs => { st with specs := artifact.content }
  | ArtifactType.code => { st with code := artifact.content }
  | ArtifactType.validation => { st with validation := artifact.content }

/-- State reconstruction at the top of Orchestrator.continue_run: rebuild
the in-memory contents from the persisted artifacts of the run (the last
row per type wins, counters restart at 0). -/
def reconstructState (rid : Nat) (from_stage : String) (db : DB) :
    WorkflowState :=
  let base := { initialState rid db.product_request with current_stage := from_stage }
  (db.artifacts.filter (fun a => a.run_id == rid)).foldl applyArtifact base

/-- Mirror of Orchestrator.continue_run: reconstruct the state, set the
run status to running, then act on the Approval row for from_stage:
regenerate the gated stage, advance past it when approved, or do nothing
when the decision is still pending or was a plain rejection. -/
def continue_run (ag : Agents) (rid : Nat) (from_stage : String) (db : DB) :
    Except String (WorkflowState × DB) :=
  if !(db.run.id == rid) then
    Except.error ("Run " ++ toString rid ++ " not found")
  else
    let st := reconstructState rid from_stage db
    let db := { db with run := { db.run with status := RunStatus.running } }
    if from_stage == "epics" then
      match findApproval db.approvals rid "epics" with
      | some a =>
        if a.action == "regenerate" then
          let p := epics_node ag st db
          Except.ok (wait_epic_approval_node p.1 p.2)
        else if a.approved == some true then
          let p := stories_node ag st db
          Except.ok (wait_story_approval_node p.1 p.2)
        else Except.ok (st, db)
      | none => Except.ok (st, db)
    else if from_stage == "stories" then
      match findApproval db.approvals rid "stories" with
      | some a =>
        if a.action == "regenerate" then
          let p := stories_node ag st db
          Except.ok (wait_story_approval_node p.1 p.2)
        else if a.approved == some true then
          let p := specs_node ag st db
          Except.ok (wait_spec_approval_node p.1 p.2)
        else Except.ok (st, db)
      | none => Except.ok (st, db)
    else if from_stage == "specs" then
      match findApproval db.approvals rid "specs" with
      | some a =>
        if a.action == "regenerate" then
          let p := specs_node ag st db
          Except.ok (wait_spec_approval_node p.1 p.2)
        else if a.approved == some true then
          let p := code_node ag st db
          let q := validation_node ag p.1 p.2
          Except.ok (complete_node q.1 q.2)
        else Except.ok (st, db)
      | none => Except.ok (st, db)
    else Except.ok (st, db)

/-- Request body of the decision-submission route, mirroring
ApprovalCreate in app/runs/schemas.py. -/
structure ApprovalCreate where
  approved : Bool
  feedback : Option String
  action : Option String
deriving DecidableEq, Repr

/-- The gated stages accepted by the decision route. -/
def valid_stages : List String := ["epics", "stories", "specs"]

/-- The actions accepted by the ApprovalCreate validator. -/
def valid_actions : List String := ["proceed", "regenerate", "reject"]

/-- Mirror of the validate_action field validator of ApprovalCreate: a
truthy action outside the allowed set is rejected; a falsy one defaults
to proceed. -/
def validate_action (v : Option String) : Except String String :=
  match v with
  | none => Except.ok "proceed"
  | some s =>
    if !(s == "") && !(valid_actions.contains s) then
      Except.error "Action must be one of: proceed, regenerate, reject"
    else Except.ok (if s == "" then "proceed" else s)

/-- Python expression used by the route when storing the action: the
submitted action, or proceed when it is falsy. -/
def actionOrProceed : Option String → String
  | none => "proceed"
  | some s => if s == "" then "proceed" else s

/-- Progress message emitted by the decision route. -/
def approvalMessage (stage : String) (data : ApprovalCreate) : String :=
  let action_msg :=
    if data.action == some "regenerate" then " - will regenerate with feedback"
    else if data.action == some "reject" then " - rejected"
    else ""
  "Stage " ++ stage ++ " " ++
    (if data.approved then "approved" else "rejected") ++ action_msg

/-- Mirror of the submit_approval route in app/runs/routes.py (auth and
HTTP shape stripped): validate the stage, then create or update in place
the single Approval row for the (run, stage) pair with the submitted
values, and emit one progress event. -/
def submit_approval (db : DB) (rid : Nat) (stage : String)
    (data : ApprovalCreate) : Except String DB :=
  if !(db.run.id == rid) then Except.error "Run not found"
  else if !(valid_stages.contains stage) then
    Except.error "Invalid stage. Must be one of: epics, stories, specs"
  else
    let db :=
      match findApproval db.approvals rid stage with
      | some _ =>
        { db with approvals := (updateFirstApproval db.approvals rid stage
            (fun a =>
              { a with
                approved := some data.approved
                feedback := data.feedback
                action := actionOrProceed data.action })) }
      | none =>
        { db with approvals := db.approvals ++
            [⟨rid, stage, some data.approved, data.feedback,
              actionOrProceed data.action⟩] }
    Except.ok (emit_progress db rid stage (approvalMessage stage data))

/-- Number of Artifact rows of a given type belonging to a run. -/
def countArtifacts (db : DB) (rid : Nat) (ty : ArtifactType) : Nat :=
  (db.artifacts.filter (fun a => a.run_id == rid && a.artifact_type == ty)).length

/-- Number of Approval rows for one (run, stage) pair. -/
def approvalKeyCount (l : List Approval) (rid : Nat) (s : String) : Nat :=
  (l.filter (fun a => a.run_id == rid && a.stage == s)).length

/-- At most one Approval row per (run, stage) pair, list level. -/
def AtMostOneL (l : List Approval) : Prop :=
  ∀ rid s, approvalKeyCount l rid s ≤ 1

/-- At most one Approval row per (run, stage) pair in the store. -/
def AtMostOnePerPair (db : DB) : Prop :=
  AtMostOneL db.approvals

/-- One external operation on the persisted store: a decision submission,
a Start, or a Resume.  These are the three writers of orchestration
state reachable from the control surface. -/
inductive StepOp : DB → DB → Prop
  | submitStep (rid : Nat) (stage : String) (data : ApprovalCreate)
      (db db2 : DB) (h : submit_approval db rid stage data = Except.ok db2) :
      StepOp db db2
  | startStep (ag : Agents) (rid : Nat) (pr : String) (db : DB) :
      StepOp db (execute_run ag rid pr db).2
  | resumeStep (ag : Agents) (rid : Nat) (fs : String) (db : DB)
      (st2 : WorkflowState) (db2 : DB)
      (h : continue_run ag rid fs db = Except.ok (st2, db2)) :
      StepOp db db2

/-- Reachability through any sequence of external operations. -/
def Reachable : DB → DB → Prop :=
  Relation.ReflTransGen StepOp

/-- The Approval row for from_stage neither carries a regenerate action
nor an approved decision, so Resume has nothing to act on. -/
def approvalNotActionable (db : DB) (rid : Nat) (fs : String) : Bool :=
  match findApproval db.approvals rid fs with
  | none => true
  | some a => !(a.action == "regenerate") && !(a.approved == some true)

/-- A successful executor result with the given content and an empty
metadata bundle, as the mocked agents in the repository tests return. -/
def okResult (c : String) : ExecResult :=
  { success := true, content := c, error := none, metadata := some [] }

/-- A structured executor failure with the error message used in the
repository test for the fallback path. -/
def failResult : ExecResult :=
  { success := false, content := "", error := some "API rate limit exceeded",
    metadata := none }

/-- Executors that all succeed with fixed contents. -/
def okAgents : Agents :=
  { research := fun _ => okResult "# Research"
    epic := fun _ _ _ _ => okResult "# Epics"
    story := fun _ _ _ => okResult "# Stories"
    spec := fun _ _ _ => okResult "# Specs"
    code := fun _ => okResult "# Code"
    validation := fun _ => okResult "# Validation" }

/-- Executors that all return a structured failure. -/
def failAgents : Agents :=
  { research := fun _ => failResult
    epic := fun _ _ _ _ => failResult
    story := fun _ _ _ => failResult
    spec := fun _ _ _ => failResult
    code := fun _ => failResult
    validation := fun _ => failResult }

/-- A freshly created run: status pending, no artifacts, no approvals. -/
def freshDB (rid : Nat) (pr : String) : DB :=
  { run := ⟨rid, RunStatus.pending, "", none⟩
    product_request := pr
    artifacts := []
    approvals := []
    events := [] }

/-- Store of a run suspended at the epic gate after scenario A, with the
epics decision already submitted as approved (action proceed). -/
def approvedEpicsDB : DB :=
  { run := ⟨1, RunStatus.paused, "waiting_epic_approval", none⟩
    product_request := "Build a todo app"
    artifacts := [⟨1, ArtifactType.research, "research.md", "# Research", some []⟩,
                  ⟨1, ArtifactType.epics, "epics.md", "# Epics", some []⟩]
    approvals := [⟨1, "epics", some true, none, "proceed"⟩]
    events := [] }

/-- Store of a run suspended at the epic gate with the epics decision
still pending. -/
def pendingEpicsDB : DB :=
  { run := ⟨1, RunStatus.paused, "waiting_epic_approval", none⟩
    product_request := "Build a todo app"
    artifacts := [⟨1, ArtifactType.research, "research.md", "# Research", some []⟩,
                  ⟨1, ArtifactType.epics, "epics.md", "# Epics", some []⟩]
    approvals := [⟨1, "epics", none, none, "proceed"⟩]
    events := [] }

/-- Store of a run suspended at the epic gate whose epics decision is a
plain rejection (approved false, action reject). -/
def rejectedEpicsDB : DB :=
  { run := ⟨1, RunStatus.paused, "waiting_epic_approval", none⟩
    product_request := "Build a todo app"
    artifacts := [⟨1, ArtifactType.research, "research.md", "# Research", some []⟩,
                  ⟨1, ArtifactType.epics, "epics.md", "# Epics", some []⟩]
    approvals := [⟨1, "epics", some false, none, "reject"⟩]
    events := [] }

/-- Store of a run suspended at the epic gate whose epics decision is
approved false, action regenerate, feedback attached (scenario C). -/
def regenEpicsDB : DB :=
  { run := ⟨1, RunStatus.paused, "waiting_epic_approval", none⟩
    product_request := "Build a todo app"
    artifacts := [⟨1, ArtifactType.research, "research.md", "# Research", some []⟩,
                  ⟨1, ArtifactType.epics, "epics.md", "# Epics", some []⟩]
    approvals := [⟨1, "epics", some false, some "add security epic", "regenerate"⟩]
    events := [] }

/-- Resume of run 1 from the epics gate with the all-succeeding
executors, projected to the resulting store (identity on error). -/
def resumeEpics (db : DB) : DB :=
  match continue_run okAgents 1 "epics" db with
  | Except.ok p => p.2
  | Except.error _ => db

/-- Result of the first Resume on the pending-gate store. -/
def pendingResumeOnce : WorkflowState × DB :=
  match continue_run okAgents 1 "epics" pendingEpicsDB with
  | Except.ok p => p
  | Except.error _ => (initialState 0 "", pendingEpicsDB)

/-- Artifact type produced by each gated stage name. -/
def stageArtifactType : String → ArtifactType
  | "stories" => ArtifactType.stories
  | "specs" => ArtifactType.specs
  | _ => ArtifactType.epics

/-- The store with the run status flipped to running, the first write
performed by continue_run. -/
def runningDB (db : DB) : DB :=
  { db with run := { db.run with status := RunStatus.running } }

/-- Store reached from a fresh run by one decision submission. -/
def oneSubmitDB : DB :=
  match submit_approval (freshDB 1 "Build a todo app") 1 "epics"
      ⟨true, none, none⟩ with
  | Except.ok d => d
  | Except.error _ => freshDB 1 "Build a todo app"

/-! Frame lemmas for the store helpers. -/

@[simp] theorem emit_progress_run (db : DB) (r : Nat) (s m : String) :
    (emit_progress db r s m).run = db.run := rfl

@[simp] theorem emit_progress_artifacts (db : DB) (r : Nat) (s m : String) :
    (emit_progress db r s m).artifacts = db.artifacts := rfl

@[simp] theorem emit_progress_approvals (db : DB) (r : Nat) (s m : String) :
    (emit_progress db r s m).approvals = db.approvals := rfl

@[simp] theorem save_artifact_run (db : DB) (r : Nat) (ty : ArtifactType)
    (n c : String) (m : Option Metadata) :
    (save_artifact db r ty n c m).run = db.run := rfl

@[simp] theorem save_artifact_approvals (db : DB) (r : Nat) (ty : ArtifactType)
    (n c : String) (m : Option Metadata) :
    (save_artifact db r ty n c m).approvals = db.approvals := rfl

@[simp] theorem save_artifact_artifacts (db : DB) (r : Nat) (ty : ArtifactType)
    (n c : String) (m : Option Metadata) :
    (save_artifact db r ty n c m).artifacts = db.artifacts ++ [⟨r, ty, n, c, m⟩] := rfl

@[simp] theorem updateRunStage_artifacts (db : DB) (r : Nat) (s : String) :
    (updateRunStage db r s).artifacts = db.artifacts := by
  unfold updateRunStage; split <;> rfl

@[simp] theorem updateRunStage_approvals (db : DB) (r : Nat) (s : String) :
    (updateRunStage db r s).approvals = db.approvals := by
  unfold updateRunStage; split <;> rfl

@[simp] theorem updateRunStage_run_id (db : DB) (r : Nat) (s : String) :
    (updateRunStage db r s).run.id = db.run.id := by
  unfold updateRunStage; split <;> rfl

@[simp] theorem updateRunStageStatus_artifacts (db : DB) (r : Nat) (s : String)
    (x : RunStatus) : (updateRunStageStatus db r s x).artifacts = db.artifacts := by
  unfold updateRunStageStatus; split <;> rfl

@[simp] theorem updateRunStageStatus_approvals (db : DB) (r : Nat) (s : String)
    (x : RunStatus) : (updateRunStageStatus db r s x).approvals = db.approvals := by
  unfold updateRunStageStatus; split <;> rfl

@[simp] theorem updateRunStageStatus_run_id (db : DB) (r : Nat) (s : String)
    (x : RunStatus) : (updateRunStageStatus db r s x).run.id = db.run.id := by
  unfold updateRunStageStatus; split <;> rfl

@[simp] theorem create_or_update_approval_run (db : DB) (r : Nat) (s : String) :
    (create_or_update_approval db r s).run = db.run := rfl

@[simp] theorem create_or_update_approval_artifacts (db : DB) (r : Nat) (s : String) :
    (create_or_update_approval db r s).artifacts = db.artifacts := rfl

@[simp] theorem create_or_update_approval_approvals (db : DB) (r : Nat) (s : String) :
    (create_or_update_approval db r s).approvals = cuApprovals db.approvals r s := rfl

/-! Shape lemmas for the stage nodes. -/

theorem research_finish_run_id (r : Nat) (res : ExecResult)
    (st : WorkflowState) (db : DB) :
    (research_finish r res st db).2.run.id = db.run.id := by
  unfold research_finish
  split <;> simp

theorem research_finish_approvals (r : Nat) (res : ExecResult)
    (st : WorkflowState) (db : DB) :
    (research_finish r res st db).2.approvals = db.approvals := by
  unfold research_finish
  split <;> simp

theorem research_finish_artifacts (r : Nat) (res : ExecResult)
    (st : WorkflowState) (db : DB) :
    ∃ art : Artifact,
      (research_finish r res st db).2.artifacts = db.artifacts ++ [art] ∧
      art.run_id = r ∧ art.artifact_type = ArtifactType.research := by
  unfold research_finish
  split
  · exact ⟨⟨r, ArtifactType.research, "research.md", res.content, res.metadata⟩,
      by simp, rfl, rfl⟩
  · exact ⟨⟨r, ArtifactType.research, "research.md",
      researchFallbackContent st.product_request,
      some (fallbackMeta (res.error.getD "Research failed"))⟩, by simp, rfl, rfl⟩

theorem research_node_run_id (ag : Agents) (st : WorkflowState) (db : DB) :
    (research_node ag st db).2.run.id = db.run.id := by
  unfold research_node
  simp [research_finish_run_id]

theorem research_node_approvals (ag : Agents) (st : WorkflowState) (db : DB) :
    (research_node ag st db).2.approvals = db.approvals := by
  unfold research_node
  simp [research_finish_approvals]

theorem research_node_artifacts (ag : Agents) (st : WorkflowState) (db : DB) :
    ∃ art : Artifact,
      (research_node ag st db).2.artifacts = db.artifacts ++ [art] ∧
      art.run_id = st.run_id ∧ art.artifact_type = ArtifactType.research := by
  unfold research_node
  obtain ⟨art, h1, h2, h3⟩ := research_finish_artifacts st.run_id
    (ag.research st.product_request) st
    (updateRunStage (emit_progress db st.run_id "research" "Research phase started")
      st.run_id "research")
  exact ⟨art, by simp at h1; simpa using h1, h2, h3⟩

/-- Number of Artifact rows of a given type for a run, list level. -/
def countA (l : List Artifact) (rid : Nat) (ty : ArtifactType) : Nat :=
  (l.filter (fun a => a.run_id == rid && a.artifact_type == ty)).length

theorem countArtifacts_eq_countA (db : DB) (rid : Nat) (ty : ArtifactType) :
    countArtifacts db rid ty = countA db.artifacts rid ty := rfl

theorem epics_finish_run_id (r : Nat) (res : ExecResult)
    (st : WorkflowState) (db : DB) :
    (epics_finish r res st db).2.run.id = db.run.id := by
  unfold epics_finish
  split <;> simp

theorem epics_finish_approvals (r : Nat) (res : ExecResult)
    (st : WorkflowState) (db : DB) :
    (epics_finish r res st db).2.approvals = cuApprovals db.approvals r "epics" := by
  unfold epics_finish
  split <;> simp

theorem epics_finish_count (r : Nat) (res : ExecResult)
    (st : WorkflowState) (db : DB) :
    countA (epics_finish r res st db).2.artifacts r ArtifactType.epics =
      countA db.artifacts r ArtifactType.epics + 1 := by
  unfold epics_finish
  split <;> simp [countA, List.filter_append]

theorem epics_finish_length (r : Nat) (res : ExecResult)
    (st : WorkflowState) (db : DB) :
    (epics_finish r res st db).2.artifacts.length = db.artifacts.length + 1 := by
  unfold epics_finish
  split <;> simp

theorem stories_finish_run_id (r : Nat) (res : ExecResult)
    (st : WorkflowState) (db : DB) :
    (stories_finish r res st db).2.run.id = db.run.id := by
  unfold stories_finish
  split <;> simp

theorem stories_finish_approvals (r : Nat) (res : ExecResult)
    (st : WorkflowState) (db : DB) :
    (stories_finish r res st db).2.approvals = cuApprovals db.approvals r "stories" := by
  unfold stories_finish
  split <;> simp

theorem stories_finish_count (r : Nat) (res : ExecResult)
    (st : WorkflowState) (db : DB) :
    countA (stories_finish r res st db).2.artifacts r ArtifactType.stories =
      countA db.artifacts r ArtifactType.stories + 1 := by
  unfold stories_finish
  split <;> simp [countA, List.filter_append]

theorem stories_finish_length (r : Nat) (res : ExecResult)
    (st : WorkflowState) (db : DB) :
    (stories_finish r res st db).2.artifacts.length = db.artifacts.length + 1 := by
  unfold stories_finish
  split <;> simp

theorem specs_finish_run_id (r : Nat) (res : ExecResult)
    (st : WorkflowState) (db : DB) :
    (specs_finish r res st db).2.run.id = db.run.id := by
  unfold specs_finish
  split <;> simp

theorem specs_finish_approvals (r : Nat) (res : ExecResult)
    (st : WorkflowState) (db : DB) :
    (specs_finish r res st db).2.approvals = cuApprovals db.approvals r "specs" := by
  unfold specs_finish
  split <;> simp

theorem specs_finish_count (r : Nat) (res : ExecResult)
    (st : WorkflowState) (db : DB) :
    countA (specs_finish r res st db).2.artifacts r ArtifactType.specs =
      countA db.artifacts r ArtifactType.specs + 1 := by
  unfold specs_finish
  split <;> simp [countA, List.filter_append]

theorem specs_finish_length (r : Nat) (res : ExecResult)
    (st : WorkflowState) (db : DB) :
    (specs_finish r res st db).2.artifacts.length = db.artifacts.length + 1 := by
  unfold specs_finish
  split <;> simp

theorem code_finish_run_id (r : Nat) (res : ExecResult)
    (st : WorkflowState) (db : DB) :
    (code_finish r res st db).2.run.id = db.run.id := by
  unfold code_finish
  split <;> simp

theorem code_finish_approvals (r : Nat) (res : ExecResult)
    (st : WorkflowState) (db : DB) :
    (code_finish r res st db).2.approvals = db.approvals := by
  unfold code_finish
  split <;> simp

theorem validation_finish_run_id (r : Nat) (res : ExecResult)
    (st : WorkflowState) (db : DB) :
    (validation_finish r res st db).2.run.id = db.run.id := by
  unfold validation_finish
  split <;> simp

theorem validation_finish_approvals (r : Nat) (res : ExecResult)
    (st : WorkflowState) (db : DB) :
    (validation_finish r res st db).2.approvals = db.approvals := by
  unfold validation_finish
  split <;> simp

theorem epics_node_run_id (ag : Agents) (st : WorkflowState) (db : DB) :
    (epics_node ag st db).2.run.id = db.run.id := by
  unfold epics_node
  simp [epics_finish_run_id, apply_ite]

theorem epics_node_approvals (ag : Agents) (st : WorkflowState) (db : DB) :
    (epics_node ag st db).2.approvals = cuApprovals db.approvals st.run_id "epics" := by
  unfold epics_node
  simp [epics_finish_approvals, apply_ite]

theorem epics_node_count (ag : Agents) (st : WorkflowState) (db : DB) :
    countA (epics_node ag st db).2.artifacts st.run_id ArtifactType.epics =
      countA db.artifacts st.run_id ArtifactType.epics + 1 := by
  unfold epics_node
  simp [epics_finish_count, apply_ite]

theorem epics_node_length (ag : Agents) (st : WorkflowState) (db : DB) :
    (epics_node ag st db).2.artifacts.length = db.artifacts.length + 1 := by
  unfold epics_node
  simp [epics_finish_length, apply_ite]

theorem stories_node_run_id (ag : Agents) (st : WorkflowState) (db : DB) :
    (stories_node ag st db).2.run.id = db.run.id := by
  unfold stories_node
  simp [stories_finish_run_id, apply_ite]

theorem stories_node_approvals (ag : Agents) (st : WorkflowState) (db : DB) :
    (stories_node ag st db).2.approvals = cuApprovals db.approvals st.run_id "stories" := by
  unfold stories_node
  simp [stories_finish_approvals, apply_ite]

theorem stories_node_count (ag : Agents) (st : WorkflowState) (db : DB) :
    countA (stories_node ag st db).2.artifacts st.run_id ArtifactType.stories =
      countA db.artifacts st.run_id ArtifactType.stories + 1 := by
  unfold stories_node
  simp [stories_finish_count, apply_ite]

theorem stories_node_length (ag : Agents) (st : WorkflowState) (db : DB) :
    (stories_node ag st db).2.artifacts.length = db.artifacts.length + 1 := by
  unfold stories_node
  simp [stories_finish_length, apply_ite]

theorem specs_node_run_id (ag : Agents) (st : WorkflowState) (db : DB) :
    (specs_node ag st db).2.run.id = db.run.id := by
  unfold specs_node
  simp [specs_finish_run_id, apply_ite]

theorem specs_node_approvals (ag : Agents) (st : WorkflowState) (db : DB) :
    (specs_node ag st db).2.approvals = cuApprovals db.approvals st.run_id "specs" := by
  unfold specs_node
  simp [specs_finish_approvals, apply_ite]

theorem specs_node_count (ag : Agents) (st : WorkflowState) (db : DB) :
    countA (specs_node ag st db).2.artifacts st.run_id ArtifactType.specs =
      countA db.artifacts st.run_id ArtifactType.specs + 1 := by
  unfold specs_node
  simp [specs_finish_count, apply_ite]

theorem specs_node_length (ag : Agents) (st : WorkflowState) (db : DB) :
    (specs_node ag st db).2.artifacts.length = db.artifacts.length + 1 := by
  unfold specs_node
  simp [specs_finish_length, apply_ite]

theorem code_node_run_id (ag : Agents) (st : WorkflowState) (db : DB) :
    (code_node ag st db).2.run.id = db.run.id := by
  unfold code_node
  simp [code_finish_run_id]

theorem code_node_approvals (ag : Agents) (st : WorkflowState) (db : DB) :
    (code_node ag st db).2.approvals = db.approvals := by
  unfold code_node
  simp [code_finish_approvals]

theorem validation_node_run_id (ag : Agents) (st : WorkflowState) (db : DB) :
    (validation_node ag st db).2.run.id = db.run.id := by
  unfold validation_node
  simp [validation_finish_run_id]

theorem validation_node_approvals (ag : Agents) (st : WorkflowState) (db : DB) :
    (validation_node ag st db).2.approvals = db.approvals := by
  unfold validation_node
  simp [validation_finish_approvals]

theorem complete_node_run_id (st : WorkflowState) (db : DB) :
    (complete_node st db).2.run.id = db.run.id := by
  unfold complete_node
  simp

theorem complete_node_approvals (st : WorkflowState) (db : DB) :
    (complete_node st db).2.approvals = db.approvals := by
  unfold complete_node
  simp

theorem complete_node_artifacts (st : WorkflowState) (db : DB) :
    (complete_node st db).2.artifacts = db.artifacts := by
  unfold complete_node
  simp

theorem wait_epic_approval_node_run_id (st : WorkflowState) (db : DB) :
    (wait_epic_approval_node st db).2.run.id = db.run.id := by
  unfold wait_epic_approval_node
  simp

theorem wait_epic_approval_node_artifacts (st : WorkflowState) (db : DB) :
    (wait_epic_approval_node st db).2.artifacts = db.artifacts := by
  unfold wait_epic_approval_node
  simp

theorem wait_epic_approval_node_approvals (st : WorkflowState) (db : DB) :
    (wait_epic_approval_node st db).2.approvals = db.approvals := by
  unfold wait_epic_approval_node
  simp

theorem wait_story_approval_node_run_id (st : WorkflowState) (db : DB) :
    (wait_story_approval_node st db).2.run.id = db.run.id := by
  unfold wait_story_approval_node
  simp

theorem wait_story_approval_node_artifacts (st : WorkflowState) (db : DB) :
    (wait_story_approval_node st db).2.artifacts = db.artifacts := by
  unfold wait_story_approval_node
  simp

theorem wait_story_approval_node_approvals (st : WorkflowState) (db : DB) :
    (wait_story_approval_node st db).2.approvals = db.approvals := by
  unfold wait_story_approval_node
  simp

theorem wait_spec_approval_node_run_id (st : WorkflowState) (db : DB) :
    (wait_spec_approval_node st db).2.run.id = db.run.id := by
  unfold wait_spec_approval_node
  simp

theorem wait_spec_approval_node_artifacts (st : WorkflowState) (db : DB) :
    (wait_spec_approval_node st db).2.artifacts = db.artifacts := by
  unfold wait_spec_approval_node
  simp

theorem wait_spec_approval_node_approvals (st : WorkflowState) (db : DB) :
    (wait_spec_approval_node st db).2.approvals = db.approvals := by
  unfold wait_spec_approval_node
  simp

/-! Lemmas about the Approval-row list operations. -/

theorem findApproval_key (l : List Approval) (rid : Nat) (s : String)
    (a : Approval) (h : findApproval l rid s = some a) :
    a.run_id = rid ∧ a.stage = s := by
  have hp := List.find?_some h
  simp only [Bool.and_eq_true, beq_iff_eq] at hp
  exact hp

theorem findApproval_updateFirst (l : List Approval) (rid : Nat) (s : String)
    (f : Approval → Approval) (a : Approval)
    (hf : ∀ x, (f x).run_id = x.run_id ∧ (f x).stage = x.stage)
    (h : findApproval l rid s = some a) :
    findApproval (updateFirstApproval l rid s f) rid s = some (f a) := by
  induction l with
  | nil => simp [findApproval] at h
  | cons b t ih =>
    by_cases hb : (b.run_id == rid && b.stage == s) = true
    · have hba : b = a := by
        simp only [findApproval, List.find?_cons, hb] at h
        exact Option.some_injective _ h
      have hfb : ((f b).run_id == rid && (f b).stage == s) = true := by
        obtain ⟨h1, h2⟩ := hf b
        simp only [h1, h2]
        exact hb
      have hupd : updateFirstApproval (b :: t) rid s f = f b :: t := by
        simp [updateFirstApproval, hb]
      rw [hupd]
      subst hba
      simp [findApproval, List.find?_cons, hfb]
    · have h' : findApproval t rid s = some a := by
        simp only [findApproval, List.find?_cons, hb] at h
        simpa [findApproval] using h
      simp only [updateFirstApproval, hb, if_false]
      simpa [findApproval, List.find?_cons, hb] using ih h'

theorem updateFirstApproval_length (l : List Approval) (rid : Nat) (s : String)
    (f : Approval → Approval) :
    (updateFirstApproval l rid s f).length = l.length := by
  induction l with
  | nil => rfl
  | cons b t ih =>
    by_cases hb : (b.run_id == rid && b.stage == s) = true
    · simp [updateFirstApproval, hb]
    · simp [updateFirstApproval, hb, ih]

theorem updateFirstApproval_mem_of_not_key (l : List Approval) (rid : Nat)
    (s : String) (f : Approval → Approval) (b : Approval)
    (hmem : b ∈ l) (hb : ¬(b.run_id = rid ∧ b.stage = s)) :
    b ∈ updateFirstApproval l rid s f := by
  induction l with
  | nil => simp at hmem
  | cons c t ih =>
    by_cases hc : (c.run_id == rid && c.stage == s) = true
    · rcases List.mem_cons.mp hmem with hbc | hbt
      · exfalso
        apply hb
        subst hbc
        simpa [Bool.and_eq_true, beq_iff_eq] using hc
      · simp [updateFirstApproval, hc, List.mem_cons, hbt]
    · rcases List.mem_cons.mp hmem with hbc | hbt
      · simp [updateFirstApproval, hc, List.mem_cons, hbc]
      · simp [updateFirstApproval, hc, List.mem_cons, ih hbt]

theorem approvalKeyCount_updateFirst (l : List Approval) (rid : Nat)
    (s : String) (f : Approval → Approval)
    (hf : ∀ x, (f x).run_id = x.run_id ∧ (f x).stage = x.stage)
    (r2 : Nat) (s2 : String) :
    approvalKeyCount (updateFirstApproval l rid s f) r2 s2 =
      approvalKeyCount l r2 s2 := by
  induction l with
  | nil => rfl
  | cons b t ih =>
    have hkey : ((f b).run_id == r2 && (f b).stage == s2) =
        (b.run_id == r2 && b.stage == s2) := by
      obtain ⟨h1, h2⟩ := hf b
      simp [h1, h2]
    by_cases hb : (b.run_id == rid && b.stage == s) = true
    · have hupd : updateFirstApproval (b :: t) rid s f = f b :: t := by
        simp [updateFirstApproval, hb]
      rw [hupd]
      unfold approvalKeyCount
      simp only [List.filter_cons, hkey]
      split <;> simp
    · have hupd : updateFirstApproval (b :: t) rid s f =
          b :: updateFirstApproval t rid s f := by
        simp [updateFirstApproval, hb]
      rw [hupd]
      unfold approvalKeyCount at ih ⊢
      simp only [List.filter_cons]
      split <;> simp [ih]

theorem approvalKeyCount_append (l1 l2 : List Approval) (rid : Nat) (s : String) :
    approvalKeyCount (l1 ++ l2) rid s =
      approvalKeyCount l1 rid s + approvalKeyCount l2 rid s := by
  simp [approvalKeyCount, List.filter_append]

theorem approvalKeyCount_of_find_none (l : List Approval) (rid : Nat)
    (s : String) (h : findApproval l rid s = none) :
    approvalKeyCount l rid s = 0 := by
  unfold findApproval at h
  rw [List.find?_eq_none] at h
  unfold approvalKeyCount
  rw [List.filter_eq_nil_iff.mpr fun a ha => by simpa using h a ha]
  rfl

theorem findApproval_append_single (l : List Approval) (rid : Nat) (s : String)
    (x : Approval) (h : findApproval l rid s = none)
    (hx : (x.run_id == rid && x.stage == s) = true) :
    findApproval (l ++ [x]) rid s = some x := by
  unfold findApproval at h ⊢
  rw [List.find?_append, h]
  simp [List.find?_cons, hx]

theorem findApproval_cuApprovals (l : List Approval) (rid : Nat) (s : String) :
    ∃ fb : Option String,
      findApproval (cuApprovals l rid s) rid s = some ⟨rid, s, none, fb, "proceed"⟩ := by
  unfold cuApprovals
  cases h : findApproval l rid s with
  | none =>
    refine ⟨none, ?_⟩
    exact findApproval_append_single l rid s _ h (by simp)
  | some a =>
    refine ⟨a.feedback, ?_⟩
    have := findApproval_updateFirst l rid s
      (fun x => { x with approved := none, action := "proceed" }) a
      (fun x => ⟨rfl, rfl⟩) h
    obtain ⟨h1, h2⟩ := findApproval_key l rid s a h
    rw [this]
    subst h1
    subst h2
    rfl

theorem AtMostOneL_cuApprovals (l : List Approval) (rid : Nat) (s : String)
    (hinv : AtMostOneL l) : AtMostOneL (cuApprovals l rid s) := by
  intro r2 s2
  unfold cuApprovals
  cases h : findApproval l rid s with
  | none =>
    rw [approvalKeyCount_append]
    by_cases hk : (rid = r2 ∧ s = s2)
    · obtain ⟨h1, h2⟩ := hk
      subst h1
      subst h2
      rw [approvalKeyCount_of_find_none l rid s h]
      simp [approvalKeyCount]
    · have : approvalKeyCount [(⟨rid, s, none, none, "proceed"⟩ : Approval)] r2 s2 = 0 := by
        simp only [approvalKeyCount, List.filter, List.length]
        have : ((rid == r2) && (s == s2)) = false := by
          rcases not_and_or.mp hk with hne | hne <;> simp [beq_eq_false_iff_ne, hne]
        simp [this]
      rw [this]
      simpa using hinv r2 s2
  | some a =>
    simp only []
    rw [approvalKeyCount_updateFirst l rid s
      (fun a => { a with approved := none, action := "proceed" })
      (fun x => ⟨rfl, rfl⟩)]
    exact hinv r2 s2

/-! Lemmas about state reconstruction and resumption. -/

theorem foldl_applyArtifact_frame (l : List Artifact) (st : WorkflowState) :
    (l.foldl applyArtifact st).run_id = st.run_id ∧
    (l.foldl applyArtifact st).product_request = st.product_request ∧
    (l.foldl applyArtifact st).current_stage = st.current_stage ∧
    (l.foldl applyArtifact st).epic_regeneration_count = st.epic_regeneration_count ∧
    (l.foldl applyArtifact st).story_regeneration_count = st.story_regeneration_count ∧
    (l.foldl applyArtifact st).spec_regeneration_count = st.spec_regeneration_count := by
  induction l generalizing st with
  | nil => exact ⟨rfl, rfl, rfl, rfl, rfl, rfl⟩
  | cons a t ih =>
    have hstep : (applyArtifact st a).run_id = st.run_id ∧
        (applyArtifact st a).product_request = st.product_request ∧
        (applyArtifact st a).current_stage = st.current_stage ∧
        (applyArtifact st a).epic_regeneration_count = st.epic_regeneration_count ∧
        (applyArtifact st a).story_regeneration_count = st.story_regeneration_count ∧
        (applyArtifact st a).spec_regeneration_count = st.spec_regeneration_count := by
      unfold applyArtifact
      cases a.artifact_type <;> exact ⟨rfl, rfl, rfl, rfl, rfl, rfl⟩
    obtain ⟨i1, i2, i3, i4, i5, i6⟩ := ih (applyArtifact st a)
    obtain ⟨s1, s2, s3, s4, s5, s6⟩ := hstep
    exact ⟨i1.trans s1, i2.trans s2, i3.trans s3, i4.trans s4, i5.trans s5, i6.trans s6⟩

theorem reconstructState_run_id (rid : Nat) (fs : String) (db : DB) :
    (reconstructState rid fs db).run_id = rid :=
  (foldl_applyArtifact_frame _ _).1

theorem reconstructState_current_stage (rid : Nat) (fs : String) (db : DB) :
    (reconstructState rid fs db).current_stage = fs :=
  (foldl_applyArtifact_frame _ _).2.2.1

theorem reconstructState_epic_count (rid : Nat) (fs : String) (db : DB) :
    (reconstructState rid fs db).epic_regeneration_count = 0 :=
  (foldl_applyArtifact_frame _ _).2.2.2.1

theorem reconstructState_story_count (rid : Nat) (fs : String) (db : DB) :
    (reconstructState rid fs db).story_regeneration_count = 0 :=
  (foldl_applyArtifact_frame _ _).2.2.2.2.1

theorem reconstructState_spec_count (rid : Nat) (fs : String) (db : DB) :
    (reconstructState rid fs db).spec_regeneration_count = 0 :=
  (foldl_applyArtifact_frame _ _).2.2.2.2.2

/-- Resume does nothing beyond flipping the run status to running when
the Approval row for from_stage neither carries a regenerate action nor
an approved decision. -/
theorem continue_run_noop (ag : Agents) (rid : Nat) (fs : String) (db : DB)
    (hid : db.run.id = rid)
    (hna : approvalNotActionable db rid fs = true) :
    continue_run ag rid fs db =
      Except.ok (reconstructState rid fs db,
        { db with run := { db.run with status := RunStatus.running } }) := by
  have hbeq : (db.run.id == rid) = true := beq_iff_eq.mpr hid
  unfold approvalNotActionable at hna
  by_cases h1 : fs = "epics"
  · subst h1
    cases hfind : findApproval db.approvals rid "epics" with
    | none => simp [continue_run, hbeq, hfind]
    | some a =>
      rw [hfind] at hna
      simp only [Bool.and_eq_true, Bool.not_eq_true'] at hna
      simp [continue_run, hbeq, hfind, hna.1, hna.2]
  · by_cases h2 : fs = "stories"
    · subst h2
      cases hfind : findApproval db.approvals rid "stories" with
      | none => simp [continue_run, hbeq, hfind]
      | some a =>
        rw [hfind] at hna
        simp only [Bool.and_eq_true, Bool.not_eq_true'] at hna
        simp [continue_run, hbeq, hfind, hna.1, hna.2]
    · by_cases h3 : fs = "specs"
      · subst h3
        cases hfind : findApproval db.approvals rid "specs" with
        | none => simp [continue_run, hbeq, hfind]
        | some a =>
          rw [hfind] at hna
          simp only [Bool.and_eq_true, Bool.not_eq_true'] at hna
          simp [continue_run, hbeq, hfind, hna.1, hna.2]
      · simp [continue_run, hbeq, beq_eq_false_iff_ne.mpr h1,
          beq_eq_false_iff_ne.mpr h2, beq_eq_false_iff_ne.mpr h3]

/-- A successful Resume implies the run was found, and its id is
preserved in the resulting store. -/
theorem continue_run_ok_run_id (ag : Agents) (rid : Nat) (fs : String)
    (db : DB) (st2 : WorkflowState) (db2 : DB)
    (h : continue_run ag rid fs db = Except.ok (st2, db2)) :
    db.run.id = rid ∧ db2.run.id = rid := by
  by_cases hbeq : (db.run.id == rid) = true
  · have hid : db.run.id = rid := beq_iff_eq.mp hbeq
    refine ⟨hid, ?_⟩
    unfold continue_run at h
    rw [hbeq] at h
    simp only [Bool.not_true, Bool.false_eq_true, if_false] at h
    split at h
    · -- fs == "epics"
      split at h
      · split at h
        · -- regenerate
          have hp : _ = db2 := congrArg Prod.snd (Except.ok.inj h)
          rw [← hp, wait_epic_approval_node_run_id, epics_node_run_id]
          exact hid
        · split at h
          · -- approved
            have hp : _ = db2 := congrArg Prod.snd (Except.ok.inj h)
            rw [← hp, wait_story_approval_node_run_id, stories_node_run_id]
            exact hid
          · have hp : _ = db2 := congrArg Prod.snd (Except.ok.inj h)
            rw [← hp]
            exact hid
      · have hp : _ = db2 := congrArg Prod.snd (Except.ok.inj h)
        rw [← hp]
        exact hid
    · split at h
      · -- fs == "stories"
        split at h
        · split at h
          · have hp : _ = db2 := congrArg Prod.snd (Except.ok.inj h)
            rw [← hp, wait_story_approval_node_run_id, stories_node_run_id]
            exact hid
          · split at h
            · have hp : _ = db2 := congrArg Prod.snd (Except.ok.inj h)
              rw [← hp, wait_spec_approval_node_run_id, specs_node_run_id]
              exact hid
            · have hp : _ = db2 := congrArg Prod.snd (Except.ok.inj h)
              rw [← hp]
              exact hid
        · have hp : _ = db2 := congrArg Prod.snd (Except.ok.inj h)
          rw [← hp]
          exact hid
      · split at h
        · -- fs == "specs"
          split at h
          · split at h
            · have hp : _ = db2 := congrArg Prod.snd (Except.ok.inj h)
              rw [← hp, wait_spec_approval_node_run_id, specs_node_run_id]
              exact hid
            · split at h
              · have hp : _ = db2 := congrArg Prod.snd (Except.ok.inj h)
                rw [← hp, complete_node_run_id, validation_node_run_id,
                  code_node_run_id]
                exact hid
              · have hp : _ = db2 := congrArg Prod.snd (Except.ok.inj h)
                rw [← hp]
                exact hid
          · have hp : _ = db2 := congrArg Prod.snd (Except.ok.inj h)
            rw [← hp]
            exact hid
        · have hp : _ = db2 := congrArg Prod.snd (Except.ok.inj h)
          rw [← hp]
          exact hid
  · exfalso
    unfold continue_run at h
    rw [Bool.not_eq_true] at hbeq
    rw [hbeq] at h
    simp at h

/-! Claim theorems. -/

/-- C1: evaluation of Start on a run whose research and epic executors
both return a structured failure.  The fallback artifacts are persisted
with fallback metadata carrying the failure reason and the pipeline
continues past the failed research stage into epics, but execute_run
then marks the run Failed from the leftover state error, contradicting
the claim (and the repository test) that the run status is not Failed
solely because of the executor failure. -/
theorem C1_executor_failure_marks_run_failed :
    ((execute_run failAgents 1 "Build a todo app"
        (freshDB 1 "Build a todo app")).2.artifacts.map
        (fun a => (a.artifact_type, a.artifact_metadata))) =
      [(ArtifactType.research, some (fallbackMeta "API rate limit exceeded")),
       (ArtifactType.epics, some (fallbackMeta "API rate limit exceeded"))] ∧
    (execute_run failAgents 1 "Build a todo app"
        (freshDB 1 "Build a todo app")).2.run.status = RunStatus.failed ∧
    (execute_run failAgents 1 "Build a todo app"
        (freshDB 1 "Build a todo app")).2.run.error_message =
      some "API rate limit exceeded" :=
  ⟨rfl, rfl, rfl⟩

/-- C2 counterexample: for a run suspended at the epic gate whose epics
Approval row is approved (action proceed), a second Resume with no
decision submitted between the calls re-executes the stories stage and
creates a second stories Artifact, and the epics Approval row that
drives the decision is identical at both calls. -/
theorem C2_second_resume_duplicates_stories :
    countArtifacts (resumeEpics approvedEpicsDB) 1 ArtifactType.stories = 1 ∧
    countArtifacts (resumeEpics (resumeEpics approvedEpicsDB)) 1
      ArtifactType.stories = 2 ∧
    findApproval (resumeEpics approvedEpicsDB).approvals 1 "epics" =
      findApproval approvedEpicsDB.approvals 1 "epics" :=
  ⟨rfl, rfl, rfl⟩

/-- C5 counterexample: an Approval row carrying action regenerate but no
feedback text leads the gated-stage prologue to invoke the executor with
empty feedback and counter 0, not an incremented counter as the claim
states. -/
theorem C5_regenerate_without_feedback_counter_zero :
    regenParams (some ⟨1, "epics", some false, none, "regenerate"⟩) 0 = ("", 0) ∧
    ¬ ((regenParams (some ⟨1, "epics", some false, none, "regenerate"⟩) 0).2 =
      0 + 1) := by
  refine ⟨rfl, ?_⟩
  intro hc
  exact absurd hc (by decide)

/-- C8 counterexample: after Start on a fresh run with all executors
succeeding, the persisted currentStage is the literal label
waiting_epic_approval, not the label wait_epic_approval named by the
claim. -/
theorem C8_current_stage_label_differs :
    (execute_run okAgents 1 "Build a todo app"
        (freshDB 1 "Build a todo app")).2.run.current_stage =
      "waiting_epic_approval" ∧
    ¬ ((execute_run okAgents 1 "Build a todo app"
        (freshDB 1 "Build a todo app")).2.run.current_stage =
      "wait_epic_approval") := by
  refine ⟨rfl, ?_⟩
  intro hc
  rw [show (execute_run okAgents 1 "Build a todo app"
      (freshDB 1 "Build a todo app")).2.run.current_stage =
      "waiting_epic_approval" from rfl] at hc
  exact absurd hc (by decide)

/-- C9 counterexample: Resume on a run paused at the epic gate with the
epics decision still pending executes nothing and creates no Artifact,
but it flips the persisted run status from Paused to Running instead of
leaving it unchanged. -/
theorem C9_resume_pending_flips_status_to_running :
    pendingEpicsDB.run.status = RunStatus.paused ∧
    (resumeEpics pendingEpicsDB).run.status = RunStatus.running ∧
    (resumeEpics pendingEpicsDB).artifacts = pendingEpicsDB.artifacts ∧
    ¬ ((resumeEpics pendingEpicsDB).run.status = pendingEpicsDB.run.status) := by
  refine ⟨rfl, rfl, rfl, ?_⟩
  intro hc
  rw [show (resumeEpics pendingEpicsDB).run.status = RunStatus.running from rfl,
    show pendingEpicsDB.run.status = RunStatus.paused from rfl] at hc
  exact absurd hc (by decide)

/-- C3: for a run waiting at an approval gate whose Approval row carries
approved false with action reject, Resume makes no forward progress: no
stage is re-executed (no artifact is written and no progress event is
emitted) and the persisted currentStage is unchanged, a terminal pause
requiring manual intervention. -/
theorem C3_reject_is_terminal_pause (ag : Agents) (rid : Nat) (fs : String)
    (db : DB) (a : Approval)
    (hid : db.run.id = rid)
    (ha : findApproval db.approvals rid fs = some a)
    (happ : a.approved = some false)
    (hact : a.action = "reject") :
    ∃ st2 db2, continue_run ag rid fs db = Except.ok (st2, db2) ∧
      db2.artifacts = db.artifacts ∧
      db2.approvals = db.approvals ∧
      db2.events = db.events ∧
      db2.run.current_stage = db.run.current_stage := by
  have hna : approvalNotActionable db rid fs = true := by
    unfold approvalNotActionable
    rw [ha]
    simp [happ, hact]
  exact ⟨_, _, continue_run_noop ag rid fs db hid hna, rfl, rfl, rfl, rfl⟩

/-- Witness for C3 at a concrete rejected store. -/
theorem C3_reject_is_terminal_pause_witness :
    ∃ st2 db2, continue_run okAgents 1 "epics" rejectedEpicsDB =
        Except.ok (st2, db2) ∧
      db2.artifacts = rejectedEpicsDB.artifacts ∧
      db2.approvals = rejectedEpicsDB.approvals ∧
      db2.events = rejectedEpicsDB.events ∧
      db2.run.current_stage = rejectedEpicsDB.run.current_stage :=
  C3_reject_is_terminal_pause okAgents 1 "epics" rejectedEpicsDB
    ⟨1, "epics", some false, none, "reject"⟩ rfl rfl rfl rfl

/-- C9 amended: Resume while the Approval row for fromStage is still
pending (approved unset, and not carrying a leftover regenerate action)
executes no stage, creates no Artifact, emits no event and leaves
currentStage unchanged, but it sets the persisted run status to Running
rather than leaving the status unchanged. -/
theorem C9_amended_resume_pending_noop_but_running (ag : Agents) (rid : Nat)
    (fs : String) (db : DB) (a : Approval)
    (hid : db.run.id = rid)
    (ha : findApproval db.approvals rid fs = some a)
    (hpend : a.approved = none)
    (hact : ¬ a.action = "regenerate") :
    ∃ st2 db2, continue_run ag rid fs db = Except.ok (st2, db2) ∧
      db2.artifacts = db.artifacts ∧
      db2.approvals = db.approvals ∧
      db2.events = db.events ∧
      db2.run.current_stage = db.run.current_stage ∧
      db2.run.status = RunStatus.running := by
  have hna : approvalNotActionable db rid fs = true := by
    unfold approvalNotActionable
    rw [ha]
    simp [hpend, beq_eq_false_iff_ne.mpr hact]
  exact ⟨_, _, continue_run_noop ag rid fs db hid hna, rfl, rfl, rfl, rfl, rfl⟩

/-- Witness for the amended C9 at a concrete pending store. -/
theorem C9_amended_witness :
    ∃ st2 db2, continue_run okAgents 1 "epics" pendingEpicsDB =
        Except.ok (st2, db2) ∧
      db2.artifacts = pendingEpicsDB.artifacts ∧
      db2.approvals = pendingEpicsDB.approvals ∧
      db2.events = pendingEpicsDB.events ∧
      db2.run.current_stage = pendingEpicsDB.run.current_stage ∧
      db2.run.status = RunStatus.running :=
  C9_amended_resume_pending_noop_but_running okAgents 1 "epics" pendingEpicsDB
    ⟨1, "epics", none, none, "proceed"⟩ rfl rfl rfl (by decide)

/-- C2 amended: a second Resume with no decision submitted between the
calls creates no additional Artifacts, no additional events and no
currentStage change, provided the Approval row for fromStage is not
actionable (pending, absent, or rejected without regenerate) when the
second call runs; the second call still re-sets the run status to
Running.  The unamended claim fails when the row is still approved,
because each Resume then re-executes the following stage. -/
theorem C2_amended_second_resume_is_noop (ag : Agents) (rid : Nat)
    (fs : String) (db : DB) (st1 : WorkflowState) (db1 : DB)
    (h1 : continue_run ag rid fs db = Except.ok (st1, db1))
    (hna : approvalNotActionable db1 rid fs = true) :
    ∃ st2 db2, continue_run ag rid fs db1 = Except.ok (st2, db2) ∧
      db2.artifacts = db1.artifacts ∧
      db2.approvals = db1.approvals ∧
      db2.events = db1.events ∧
      db2.run.current_stage = db1.run.current_stage ∧
      db2.run.status = RunStatus.running := by
  have hid1 : db1.run.id = rid :=
    (continue_run_ok_run_id ag rid fs db st1 db1 h1).2
  exact ⟨_, _, continue_run_noop ag rid fs db1 hid1 hna, rfl, rfl, rfl, rfl, rfl⟩

/-- Witness for the amended C2: the second Resume on the pending-gate
store is a no-op apart from the Running status. -/
theorem C2_amended_witness :
    ∃ st2 db2,
      continue_run okAgents 1 "epics" pendingResumeOnce.2 = Except.ok (st2, db2) ∧
      db2.artifacts = pendingResumeOnce.2.artifacts ∧
      db2.approvals = pendingResumeOnce.2.approvals ∧
      db2.events = pendingResumeOnce.2.events ∧
      db2.run.current_stage = pendingResumeOnce.2.run.current_stage ∧
      db2.run.status = RunStatus.running :=
  C2_amended_second_resume_is_noop okAgents 1 "epics" pendingEpicsDB
    pendingResumeOnce.1 pendingResumeOnce.2 rfl rfl

/-- C4: for every gated stage, Resume while the Approval row for that
stage carries action regenerate re-executes exactly that stage: exactly
one Artifact row is added overall, it is of that stage type, and the
Approval row is reset to pending (approved unset, action proceed). -/
theorem C4_regenerate_resume_adds_one_artifact_and_resets (ag : Agents)
    (rid : Nat) (fs : String) (db : DB) (a : Approval)
    (hid : db.run.id = rid)
    (hfs : fs = "epics" ∨ fs = "stories" ∨ fs = "specs")
    (ha : findApproval db.approvals rid fs = some a)
    (hreg : a.action = "regenerate") :
    ∃ st2 db2, continue_run ag rid fs db = Except.ok (st2, db2) ∧
      countArtifacts db2 rid (stageArtifactType fs) =
        countArtifacts db rid (stageArtifactType fs) + 1 ∧
      db2.artifacts.length = db.artifacts.length + 1 ∧
      (∃ fb, findApproval db2.approvals rid fs =
        some ⟨rid, fs, none, fb, "proceed"⟩) := by
  have hbeq : (db.run.id == rid) = true := beq_iff_eq.mpr hid
  have hregb : (a.action == "regenerate") = true := by simp [hreg]
  rcases hfs with h1 | h1 | h1
  · subst h1
    have heq : continue_run ag rid "epics" db =
        Except.ok
          ((wait_epic_approval_node
            (epics_node ag (reconstructState rid "epics" db) (runningDB db)).1
            (epics_node ag (reconstructState rid "epics" db) (runningDB db)).2).1,
           (wait_epic_approval_node
            (epics_node ag (reconstructState rid "epics" db) (runningDB db)).1
            (epics_node ag (reconstructState rid "epics" db) (runningDB db)).2).2) := by
      simp [continue_run, hbeq, ha, hregb, runningDB]
    refine ⟨_, _, heq, ?_, ?_, ?_⟩
    · have hcount := epics_node_count ag (reconstructState rid "epics" db) (runningDB db)
      rw [reconstructState_run_id] at hcount
      rw [countArtifacts_eq_countA, countArtifacts_eq_countA,
        wait_epic_approval_node_artifacts]
      simpa [stageArtifactType, runningDB] using hcount
    · rw [wait_epic_approval_node_artifacts]
      simpa [runningDB] using epics_node_length ag
        (reconstructState rid "epics" db) (runningDB db)
    · rw [wait_epic_approval_node_approvals, epics_node_approvals,
        reconstructState_run_id]
      simpa [runningDB] using findApproval_cuApprovals db.approvals rid "epics"
  · subst h1
    have heq : continue_run ag rid "stories" db =
        Except.ok
          ((wait_story_approval_node
            (stories_node ag (reconstructState rid "stories" db) (runningDB db)).1
            (stories_node ag (reconstructState rid "stories" db) (runningDB db)).2).1,
           (wait_story_approval_node
            (stories_node ag (reconstructState rid "stories" db) (runningDB db)).1
            (stories_node ag (reconstructState rid "stories" db) (runningDB db)).2).2) := by
      simp [continue_run, hbeq, ha, hregb, runningDB]
    refine ⟨_, _, heq, ?_, ?_, ?_⟩
    · have hcount := stories_node_count ag (reconstructState rid "stories" db) (runningDB db)
      rw [reconstructState_run_id] at hcount
      rw [countArtifacts_eq_countA, countArtifacts_eq_countA,
        wait_story_approval_node_artifacts]
      simpa [stageArtifactType, runningDB] using hcount
    · rw [wait_story_approval_node_artifacts]
      simpa [runningDB] using stories_node_length ag
        (reconstructState rid "stories" db) (runningDB db)
    · rw [wait_story_approval_node_approvals, stories_node_approvals,
        reconstructState_run_id]
      simpa [runningDB] using findApproval_cuApprovals db.approvals rid "stories"
  · subst h1
    have heq : continue_run ag rid "specs" db =
        Except.ok
          ((wait_spec_approval_node
            (specs_node ag (reconstructState rid "specs" db) (runningDB db)).1
            (specs_node ag (reconstructState rid "specs" db) (runningDB db)).2).1,
           (wait_spec_approval_node
            (specs_node ag (reconstructState rid "specs" db) (runningDB db)).1
            (specs_node ag (reconstructState rid "specs" db) (runningDB db)).2).2) := by
      simp [continue_run, hbeq, ha, hregb, runningDB]
    refine ⟨_, _, heq, ?_, ?_, ?_⟩
    · have hcount := specs_node_count ag (reconstructState rid "specs" db) (runningDB db)
      rw [reconstructState_run_id] at hcount
      rw [countArtifacts_eq_countA, countArtifacts_eq_countA,
        wait_spec_approval_node_artifacts]
      simpa [stageArtifactType, runningDB] using hcount
    · rw [wait_spec_approval_node_artifacts]
      simpa [runningDB] using specs_node_length ag
        (reconstructState rid "specs" db) (runningDB db)
    · rw [wait_spec_approval_node_approvals, specs_node_approvals,
        reconstructState_run_id]
      simpa [runningDB] using findApproval_cuApprovals db.approvals rid "specs"

/-- Witness for C4 at the concrete regenerate store (scenario C): the
Resume adds the second epics Artifact and resets the epics Approval. -/
theorem C4_witness :
    ∃ st2 db2, continue_run okAgents 1 "epics" regenEpicsDB =
        Except.ok (st2, db2) ∧
      countArtifacts db2 1 (stageArtifactType "epics") =
        countArtifacts regenEpicsDB 1 (stageArtifactType "epics") + 1 ∧
      db2.artifacts.length = regenEpicsDB.artifacts.length + 1 ∧
      (∃ fb, findApproval db2.approvals 1 "epics" =
        some ⟨1, "epics", none, fb, "proceed"⟩) :=
  C4_regenerate_resume_adds_one_artifact_and_resets okAgents 1 "epics"
    regenEpicsDB ⟨1, "epics", some false, some "add security epic", "regenerate"⟩
    rfl (Or.inl rfl) rfl rfl

/-- C5 amended: the gated-stage prologue invokes the executor with the
stored feedback and the counter incremented by one exactly when the
prior Approval row carries action regenerate together with a non-empty
feedback text; in every other case (other action, missing or empty
feedback, or no row) it invokes with empty feedback and counter 0.  On
Resume the counters are re-derived as 0, so the first regeneration after
a Resume runs with counter 1. -/
theorem C5_amended_regeneration_invocation (a : Approval) (c : Nat) :
    (∀ fb : String, a.action = "regenerate" → a.feedback = some fb →
      ¬ fb = "" → regenParams (some a) c = (fb, c + 1)) ∧
    (¬ a.action = "regenerate" ∨ a.feedback = none ∨ a.feedback = some "" →
      regenParams (some a) c = ("", 0)) ∧
    regenParams none c = ("", 0) ∧
    (∀ (rid : Nat) (fs : String) (db : DB),
      (reconstructState rid fs db).epic_regeneration_count = 0 ∧
      (reconstructState rid fs db).story_regeneration_count = 0 ∧
      (reconstructState rid fs db).spec_regeneration_count = 0) := by
  refine ⟨?_, ?_, rfl, ?_⟩
  · intro fb hact hfb hne
    simp [regenParams, feedbackTruthy, hact, hfb, hne]
  · intro hcase
    rcases hcase with hact | hfb | hfb
    · simp [regenParams, feedbackTruthy, beq_eq_false_iff_ne.mpr hact]
    · simp [regenParams, feedbackTruthy, hfb]
    · simp [regenParams, feedbackTruthy, hfb]
  · intro rid fs db
    exact ⟨reconstructState_epic_count rid fs db,
      reconstructState_story_count rid fs db,
      reconstructState_spec_count rid fs db⟩

/-- Witness for the amended C5: scenario C, where the stored feedback is
used and the counter equals 1 on the first regeneration after Resume. -/
theorem C5_amended_witness :
    regenParams
      (some ⟨1, "epics", some false, some "add security epic", "regenerate"⟩) 0 =
      ("add security epic", 0 + 1) :=
  (C5_amended_regeneration_invocation
    ⟨1, "epics", some false, some "add security epic", "regenerate"⟩ 0).1
    "add security epic" rfl rfl (by decide)

/-- C7: resetting an existing Approval row for regeneration sets
approved back to unset and action back to Proceed while preserving the
feedback text, the row identity (run and stage) and every other row of
the store; the artifact rows, the run row and the event list are
untouched. -/
theorem C7_reset_for_regeneration_frame (db : DB) (rid : Nat) (s : String)
    (a : Approval) (ha : findApproval db.approvals rid s = some a) :
    findApproval (create_or_update_approval db rid s).approvals rid s =
      some { a with approved := none, action := "proceed" } ∧
    (create_or_update_approval db rid s).approvals.length =
      db.approvals.length ∧
    (∀ b ∈ db.approvals, ¬(b.run_id = rid ∧ b.stage = s) →
      b ∈ (create_or_update_approval db rid s).approvals) ∧
    (create_or_update_approval db rid s).artifacts = db.artifacts ∧
    (create_or_update_approval db rid s).run = db.run ∧
    (create_or_update_approval db rid s).events = db.events := by
  have hcu : cuApprovals db.approvals rid s =
      updateFirstApproval db.approvals rid s
        (fun x => { x with approved := none, action := "proceed" }) := by
    simp [cuApprovals, ha]
  refine ⟨?_, ?_, ?_, rfl, rfl, rfl⟩
  · rw [create_or_update_approval_approvals, hcu]
    exact findApproval_updateFirst db.approvals rid s _ a (fun x => ⟨rfl, rfl⟩) ha
  · rw [create_or_update_approval_approvals, hcu]
    exact updateFirstApproval_length db.approvals rid s _
  · intro b hb hbk
    rw [create_or_update_approval_approvals, hcu]
    exact updateFirstApproval_mem_of_not_key db.approvals rid s _ b hb hbk

/-- Witness for C7 at a concrete store: the regenerate decision with its
feedback is reset to pending with the feedback preserved. -/
theorem C7_witness :
    findApproval (create_or_update_approval regenEpicsDB 1 "epics").approvals
        1 "epics" =
      some ⟨1, "epics", none, some "add security epic", "proceed"⟩ ∧
    (create_or_update_approval regenEpicsDB 1 "epics").approvals.length =
      regenEpicsDB.approvals.length ∧
    (∀ b ∈ regenEpicsDB.approvals, ¬(b.run_id = 1 ∧ b.stage = "epics") →
      b ∈ (create_or_update_approval regenEpicsDB 1 "epics").approvals) ∧
    (create_or_update_approval regenEpicsDB 1 "epics").artifacts =
      regenEpicsDB.artifacts ∧
    (create_or_update_approval regenEpicsDB 1 "epics").run = regenEpicsDB.run ∧
    (create_or_update_approval regenEpicsDB 1 "epics").events =
      regenEpicsDB.events :=
  C7_reset_for_regeneration_frame regenEpicsDB 1 "epics"
    ⟨1, "epics", some false, some "add security epic", "regenerate"⟩ rfl

/-- C10: submitting a decision for a valid gated stage with no existing
Approval row creates exactly that row with the submitted values (action
defaulting to proceed when absent), regardless of the run status and of
which artifacts exist; the artifact rows and the run row are untouched,
so the decision interface requires neither a prior stage execution nor a
paused run. -/
theorem C10_submit_creates_row_with_submitted_values (db : DB) (rid : Nat)
    (stage : String) (data : ApprovalCreate)
    (hid : db.run.id = rid)
    (hstage : valid_stages.contains stage = true)
    (hnone : findApproval db.approvals rid stage = none) :
    ∃ db2, submit_approval db rid stage data = Except.ok db2 ∧
      findApproval db2.approvals rid stage =
        some ⟨rid, stage, some data.approved, data.feedback,
          actionOrProceed data.action⟩ ∧
      db2.approvals.length = db.approvals.length + 1 ∧
      db2.artifacts = db.artifacts ∧
      db2.run = db.run := by
  have hbeq : (db.run.id == rid) = true := beq_iff_eq.mpr hid
  have hmem : stage ∈ valid_stages := by simpa using hstage
  have heq : submit_approval db rid stage data =
      Except.ok (emit_progress
        { db with approvals := db.approvals ++
            [⟨rid, stage, some data.approved, data.feedback,
              actionOrProceed data.action⟩] }
        rid stage (approvalMessage stage data)) := by
    simp [submit_approval, hbeq, hstage, hmem, hnone]
  refine ⟨_, heq, ?_, by simp, by simp, by simp⟩
  rw [emit_progress_approvals]
  exact findApproval_append_single db.approvals rid stage _ hnone (by simp)

/-- Witness for C10: a decision submitted on a fresh run (status pending,
no artifacts, no approvals) creates the row. -/
theorem C10_witness :
    ∃ db2, submit_approval (freshDB 1 "Build a todo app") 1 "epics"
        ⟨false, some "add security epic", some "regenerate"⟩ = Except.ok db2 ∧
      findApproval db2.approvals 1 "epics" =
        some ⟨1, "epics", some false, some "add security epic",
          actionOrProceed (some "regenerate")⟩ ∧
      db2.approvals.length = (freshDB 1 "Build a todo app").approvals.length + 1 ∧
      db2.artifacts = (freshDB 1 "Build a todo app").artifacts ∧
      db2.run = (freshDB 1 "Build a todo app").run :=
  C10_submit_creates_row_with_submitted_values (freshDB 1 "Build a todo app")
    1 "epics" ⟨false, some "add security epic", some "regenerate"⟩ rfl rfl rfl

/-- Unfolding equation for one fuel step of the graph traversal. -/
theorem runGraph_succ (ag : Agents) (n : Nat) (node : String)
    (st : WorkflowState) (db : DB) :
    runGraph ag (n + 1) node st db =
      (if node == "research_phase" then
        runGraph ag n "epics_phase" (research_node ag st db).1
          (research_node ag st db).2
      else if node == "epics_phase" then
        runGraph ag n "wait_epic_approval" (epics_node ag st db).1
          (epics_node ag st db).2
      else if node == "wait_epic_approval" then
        (if check_approval (wait_epic_approval_node st db).1
            (wait_epic_approval_node st db).2 == "approved" then
          runGraph ag n "stories_phase" (wait_epic_approval_node st db).1
            (wait_epic_approval_node st db).2
        else if check_approval (wait_epic_approval_node st db).1
            (wait_epic_approval_node st db).2 == "rejected" then
          runGraph ag n "epics_phase" (wait_epic_approval_node st db).1
            (wait_epic_approval_node st db).2
        else wait_epic_approval_node st db)
      else if node == "stories_phase" then
        runGraph ag n "wait_story_approval" (stories_node ag st db).1
          (stories_node ag st db).2
      else if node == "wait_story_approval" then
        (if check_approval (wait_story_approval_node st db).1
            (wait_story_approval_node st db).2 == "approved" then
          runGraph ag n "specs_phase" (wait_story_approval_node st db).1
            (wait_story_approval_node st db).2
        else if check_approval (wait_story_approval_node st db).1
            (wait_story_approval_node st db).2 == "rejected" then
          runGraph ag n "stories_phase" (wait_story_approval_node st db).1
            (wait_story_approval_node st db).2
        else wait_story_approval_node st db)
      else if node == "specs_phase" then
        runGraph ag n "wait_spec_approval" (specs_node ag st db).1
          (specs_node ag st db).2
      else if node == "wait_spec_approval" then
        (if check_approval (wait_spec_approval_node st db).1
            (wait_spec_approval_node st db).2 == "approved" then
          runGraph ag n "code_phase" (wait_spec_approval_node st db).1
            (wait_spec_approval_node st db).2
        else if check_approval (wait_spec_approval_node st db).1
            (wait_spec_approval_node st db).2 == "rejected" then
          runGraph ag n "specs_phase" (wait_spec_approval_node st db).1
            (wait_spec_approval_node st db).2
        else wait_spec_approval_node st db)
      else if node == "code_phase" then
        runGraph ag n "validation_phase" (code_node ag st db).1
          (code_node ag st db).2
      else if node == "validation_phase" then
        runGraph ag n "complete" (validation_node ag st db).1
          (validation_node ag st db).2
      else if node == "complete" then
        complete_node st db
      else (st, db)) := rfl

set_option maxHeartbeats 2000000 in
/-- Every graph traversal preserves the single-row-per-pair invariant on
the Approval table. -/
theorem runGraph_preserves_inv (ag : Agents) (fuel : Nat) :
    ∀ (node : String) (st : WorkflowState) (db : DB),
      AtMostOneL db.approvals →
      AtMostOneL (runGraph ag fuel node st db).2.approvals := by
  induction fuel with
  | zero => intro node st db hinv; exact hinv
  | succ n ih =>
    intro node st db hinv
    rw [runGraph_succ]
    split
    · apply ih
      rw [research_node_approvals]
      exact hinv
    · split
      · apply ih
        rw [epics_node_approvals]
        exact AtMostOneL_cuApprovals _ _ _ hinv
      · split
        · split
          · apply ih
            rw [wait_epic_approval_node_approvals]
            exact hinv
          · split
            · apply ih
              rw [wait_epic_approval_node_approvals]
              exact hinv
            · rw [wait_epic_approval_node_approvals]
              exact hinv
        · split
          · apply ih
            rw [stories_node_approvals]
            exact AtMostOneL_cuApprovals _ _ _ hinv
          · split
            · split
              · apply ih
                rw [wait_story_approval_node_approvals]
                exact hinv
              · split
                · apply ih
                  rw [wait_story_approval_node_approvals]
                  exact hinv
                · rw [wait_story_approval_node_approvals]
                  exact hinv
            · split
              · apply ih
                rw [specs_node_approvals]
                exact AtMostOneL_cuApprovals _ _ _ hinv
              · split
                · split
                  · apply ih
                    rw [wait_spec_approval_node_approvals]
                    exact hinv
                  · split
                    · apply ih
                      rw [wait_spec_approval_node_approvals]
                      exact hinv
                    · rw [wait_spec_approval_node_approvals]
                      exact hinv
                · split
                  · apply ih
                    rw [code_node_approvals]
                    exact hinv
                  · split
                    · apply ih
                      rw [validation_node_approvals]
                      exact hinv
                    · split
                      · rw [complete_node_approvals]
                        exact hinv
                      · exact hinv

/-- Start preserves the Approval table up to the graph traversal. -/
theorem execute_run_approvals (ag : Agents) (rid : Nat) (pr : String)
    (db : DB) :
    (execute_run ag rid pr db).2.approvals =
      (runGraph ag workflowFuel "research_phase" (initialState rid pr)
        (updateRunStageStatus db rid "research" RunStatus.running)).2.approvals := by
  unfold execute_run
  dsimp only
  split
  · split <;> rfl
  · rfl

/-- A Start preserves the single-row-per-pair invariant. -/
theorem execute_run_preserves_inv (ag : Agents) (rid : Nat) (pr : String)
    (db : DB) (hinv : AtMostOneL db.approvals) :
    AtMostOneL (execute_run ag rid pr db).2.approvals := by
  rw [execute_run_approvals]
  apply runGraph_preserves_inv
  rw [updateRunStageStatus_approvals]
  exact hinv

/-- A list with a fresh row appended keeps the single-row-per-pair bound
when no row with that key existed. -/
theorem AtMostOneL_append_new (l : List Approval) (rid : Nat) (s : String)
    (x : Approval) (hx1 : x.run_id = rid) (hx2 : x.stage = s)
    (hfind : findApproval l rid s = none) (hinv : AtMostOneL l) :
    AtMostOneL (l ++ [x]) := by
  intro r2 s2
  rw [approvalKeyCount_append]
  by_cases hk : (rid = r2 ∧ s = s2)
  · obtain ⟨h1, h2⟩ := hk
    subst h1
    subst h2
    rw [approvalKeyCount_of_find_none l rid s hfind]
    simp [approvalKeyCount, List.filter, hx1, hx2]
  · have hz : approvalKeyCount [x] r2 s2 = 0 := by
      have hcond : (x.run_id == r2 && x.stage == s2) = false := by
        rcases not_and_or.mp hk with hne | hne
        · simp [hx1, beq_eq_false_iff_ne.mpr hne]
        · simp [hx2, beq_eq_false_iff_ne.mpr hne]
      simp [approvalKeyCount, List.filter, hcond]
    rw [hz]
    simpa using hinv r2 s2

/-- A successful decision submission preserves the single-row-per-pair
invariant. -/
theorem submit_approval_preserves_inv (db : DB) (rid : Nat) (stage : String)
    (data : ApprovalCreate) (db2 : DB)
    (h : submit_approval db rid stage data = Except.ok db2)
    (hinv : AtMostOneL db.approvals) : AtMostOneL db2.approvals := by
  unfold submit_approval at h
  split at h
  · exact absurd h (by simp)
  · split at h
    · exact absurd h (by simp)
    · split at h
      · have hdb2 : _ = db2 := Except.ok.inj h
        rw [← hdb2, emit_progress_approvals]
        intro r2 s2
        have := approvalKeyCount_updateFirst db.approvals rid stage
          (fun a =>
            { a with
              approved := some data.approved
              feedback := data.feedback
              action := actionOrProceed data.action })
          (fun x => ⟨rfl, rfl⟩) r2 s2
        simpa [this] using hinv r2 s2
      · rename_i hnone
        have hdb2 : _ = db2 := Except.ok.inj h
        rw [← hdb2, emit_progress_approvals]
        exact fun r2 s2 =>
          AtMostOneL_append_new db.approvals rid stage _ rfl rfl hnone hinv r2 s2

/-- A successful Resume preserves the single-row-per-pair invariant. -/
theorem continue_run_preserves_inv (ag : Agents) (rid : Nat) (fs : String)
    (db : DB) (st2 : WorkflowState) (db2 : DB)
    (h : continue_run ag rid fs db = Except.ok (st2, db2))
    (hinv : AtMostOneL db.approvals) : AtMostOneL db2.approvals := by
  by_cases hbeq : (db.run.id == rid) = true
  · unfold continue_run at h
    rw [hbeq] at h
    simp only [Bool.not_true, Bool.false_eq_true, if_false] at h
    split at h
    · split at h
      · split at h
        · have hp : _ = db2 := congrArg Prod.snd (Except.ok.inj h)
          rw [← hp, wait_epic_approval_node_approvals, epics_node_approvals]
          exact AtMostOneL_cuApprovals _ _ _ hinv
        · split at h
          · have hp : _ = db2 := congrArg Prod.snd (Except.ok.inj h)
            rw [← hp, wait_story_approval_node_approvals, stories_node_approvals]
            exact AtMostOneL_cuApprovals _ _ _ hinv
          · have hp : _ = db2 := congrArg Prod.snd (Except.ok.inj h)
            rw [← hp]
            exact hinv
      · have hp : _ = db2 := congrArg Prod.snd (Except.ok.inj h)
        rw [← hp]
        exact hinv
    · split at h
      · split at h
        · split at h
          · have hp : _ = db2 := congrArg Prod.snd (Except.ok.inj h)
            rw [← hp, wait_story_approval_node_approvals, stories_node_approvals]
            exact AtMostOneL_cuApprovals _ _ _ hinv
          · split at h
            · have hp : _ = db2 := congrArg Prod.snd (Except.ok.inj h)
              rw [← hp, wait_spec_approval_node_approvals, specs_node_approvals]
              exact AtMostOneL_cuApprovals _ _ _ hinv
            · have hp : _ = db2 := congrArg Prod.snd (Except.ok.inj h)
              rw [← hp]
              exact hinv
        · have hp : _ = db2 := congrArg Prod.snd (Except.ok.inj h)
          rw [← hp]
          exact hinv
      · split at h
        · split at h
          · split at h
            · have hp : _ = db2 := congrArg Prod.snd (Except.ok.inj h)
              rw [← hp, wait_spec_approval_node_approvals, specs_node_approvals]
              exact AtMostOneL_cuApprovals _ _ _ hinv
            · split at h
              · have hp : _ = db2 := congrArg Prod.snd (Except.ok.inj h)
                rw [← hp, complete_node_approvals, validation_node_approvals,
                  code_node_approvals]
                exact hinv
              · have hp : _ = db2 := congrArg Prod.snd (Except.ok.inj h)
                rw [← hp]
                exact hinv
          · have hp : _ = db2 := congrArg Prod.snd (Except.ok.inj h)
            rw [← hp]
            exact hinv
        · have hp : _ = db2 := congrArg Prod.snd (Except.ok.inj h)
          rw [← hp]
          exact hinv
  · exfalso
    unfold continue_run at h
    rw [Bool.not_eq_true] at hbeq
    rw [hbeq] at h
    simp at h

/-- Any single external operation preserves the single-row-per-pair
invariant. -/
theorem stepOp_preserves_inv (db db2 : DB) (h : StepOp db db2)
    (hinv : AtMostOnePerPair db) : AtMostOnePerPair db2 := by
  cases h with
  | submitStep rid stage data db db2 hsub =>
    exact submit_approval_preserves_inv db rid stage data db2 hsub hinv
  | startStep ag rid pr db =>
    exact execute_run_preserves_inv ag rid pr db hinv
  | resumeStep ag rid fs db st2 db2 hres =>
    exact continue_run_preserves_inv ag rid fs db st2 db2 hres hinv

/-- C6: in every store reachable through decision submissions, Starts and
Resumes from a store satisfying the single-row-per-pair bound, at most
one Approval row exists per (run, stage) pair: submission updates in
place or inserts only when no row exists, and the create-or-reset after
stage execution likewise never duplicates, through any number of
regenerate cycles. -/
theorem C6_at_most_one_approval_row_per_pair (db db2 : DB)
    (h : Reachable db db2) (hinv : AtMostOnePerPair db) :
    AtMostOnePerPair db2 := by
  induction h with
  | refl => exact hinv
  | tail hab hbc ih => exact stepOp_preserves_inv _ _ hbc ih

/-- Witness for C6: one decision submission on a fresh run yields a store
with at most one Approval row per pair. -/
theorem C6_witness : AtMostOnePerPair oneSubmitDB :=
  C6_at_most_one_approval_row_per_pair (freshDB 1 "Build a todo app")
    oneSubmitDB
    (Relation.ReflTransGen.single
      (StepOp.submitStep 1 "epics" ⟨true, none, none⟩ _ _ rfl))
    (by intro rid s; simp [AtMostOnePerPair, freshDB, approvalKeyCount])

/-! Success-path equations used for the scenario-A theorem. -/

theorem research_finish_success (r : Nat) (res : ExecResult)
    (st : WorkflowState) (db : DB) (h : res.success = true) :
    research_finish r res st db =
      ({ st with research := res.content, current_stage := "research" },
       emit_progress
         (save_artifact db r ArtifactType.research "research.md" res.content
           res.metadata)
         r "research" "Research phase completed") := by
  simp [research_finish, h]

theorem research_node_success (ag : Agents) (st : WorkflowState) (db : DB)
    (h : (ag.research st.product_request).success = true) :
    research_node ag st db =
      ({ st with
         research := (ag.research st.product_request).content
         current_stage := "research" },
       emit_progress
         (save_artifact
           (updateRunStage
             (emit_progress db st.run_id "research" "Research phase started")
             st.run_id "research")
           st.run_id ArtifactType.research "research.md"
           (ag.research st.product_request).content
           (ag.research st.product_request).metadata)
         st.run_id "research" "Research phase completed") := by
  unfold research_node
  rw [research_finish_success _ _ _ _ h]

theorem epics_finish_success (r : Nat) (res : ExecResult)
    (st : WorkflowState) (db : DB) (h : res.success = true) :
    epics_finish r res st db =
      ({ st with epics := res.content, current_stage := "epics" },
       emit_progress
         (create_or_update_approval
           (save_artifact db r ArtifactType.epics "epics.md" res.content
             res.metadata)
           r "epics")
         r "epics" "Epic generation completed") := by
  simp [epics_finish, h]

theorem epics_node_success_noapproval (ag : Agents) (st : WorkflowState)
    (db : DB)
    (hna : findApproval db.approvals st.run_id "epics" = none)
    (h : (ag.epic st.product_request st.research "" 0).success = true) :
    epics_node ag st db =
      ({ st with
         epics := (ag.epic st.product_request st.research "" 0).content
         current_stage := "epics" },
       emit_progress
         (create_or_update_approval
           (save_artifact
             (updateRunStage
               (emit_progress db st.run_id "epics" "Epic generation started")
               st.run_id "epics")
             st.run_id ArtifactType.epics "epics.md"
             (ag.epic st.product_request st.research "" 0).content
             (ag.epic st.product_request st.research "" 0).metadata)
           st.run_id "epics")
         st.run_id "epics" "Epic generation completed") := by
  simp only [epics_node]
  rw [hna]
  simp only [regenActive, regenParams, Bool.false_eq_true, if_false]
  rw [epics_finish_success _ _ _ _ h]

theorem wait_epic_approval_node_eq (st : WorkflowState) (db : DB) :
    wait_epic_approval_node st db =
      ({ st with current_stage := "waiting_epic_approval" },
       emit_progress
         (updateRunStageStatus db st.run_id "waiting_epic_approval"
           RunStatus.paused)
         st.run_id "waiting_epic_approval" "Waiting for epic approval") := rfl

theorem check_approval_wait_epic_pending (st : WorkflowState) (db : DB)
    (a : Approval)
    (hcs : st.current_stage = "waiting_epic_approval")
    (hf : findApproval db.approvals st.run_id "epics" = some a)
    (hp : a.approved = none) :
    check_approval st db = "pending" := by
  unfold check_approval
  rw [hcs]
  simp only [stage_map, hf, hp]

set_option maxHeartbeats 2000000 in
/-- C8 amended: Start on a freshly created run whose research and epic
executors succeed leaves the run Paused with persisted currentStage
equal to the literal label waiting_epic_approval (the stored name of the
wait_epic_approval state), exactly one research Artifact and one epics
Artifact (two artifact rows in total), and exactly one Approval row for
stage epics with approved unset. -/
theorem C8_amended_scenario_A (ag : Agents) (rid : Nat) (pr : String)
    (hr : ∀ x, (ag.research x).success = true)
    (he : ∀ p r fb c, (ag.epic p r fb c).success = true) :
    (execute_run ag rid pr (freshDB rid pr)).2.run.status = RunStatus.paused ∧
    (execute_run ag rid pr (freshDB rid pr)).2.run.current_stage =
      "waiting_epic_approval" ∧
    countArtifacts (execute_run ag rid pr (freshDB rid pr)).2 rid
      ArtifactType.research = 1 ∧
    countArtifacts (execute_run ag rid pr (freshDB rid pr)).2 rid
      ArtifactType.epics = 1 ∧
    (execute_run ag rid pr (freshDB rid pr)).2.artifacts.length = 2 ∧
    approvalKeyCount (execute_run ag rid pr (freshDB rid pr)).2.approvals rid
      "epics" = 1 ∧
    findApproval (execute_run ag rid pr (freshDB rid pr)).2.approvals rid
      "epics" = some ⟨rid, "epics", none, none, "proceed"⟩ := by
  have h1 : research_node ag (initialState rid pr)
      ⟨⟨rid, RunStatus.running, "research", none⟩, pr, [], [], []⟩ =
      (⟨rid, pr, (ag.research pr).content, "", "", "", "", "", "research", "",
        0, 0, 0⟩,
       ⟨⟨rid, RunStatus.running, "research", none⟩, pr,
        [⟨rid, ArtifactType.research, "research.md", (ag.research pr).content,
          (ag.research pr).metadata⟩], [],
        [⟨rid, "research", "Research phase started"⟩,
         ⟨rid, "research", "Research phase completed"⟩]⟩) := by
    rw [research_node_success ag (initialState rid pr) _
      (by simp only [initialState]; exact hr pr)]
    simp [initialState, emit_progress, updateRunStage, save_artifact]
  have h2 : epics_node ag
      (⟨rid, pr, (ag.research pr).content, "", "", "", "", "", "research", "",
        0, 0, 0⟩ : WorkflowState)
      ⟨⟨rid, RunStatus.running, "research", none⟩, pr,
       [⟨rid, ArtifactType.research, "research.md", (ag.research pr).content,
         (ag.research pr).metadata⟩], [],
       [⟨rid, "research", "Research phase started"⟩,
        ⟨rid, "research", "Research phase completed"⟩]⟩ =
      (⟨rid, pr, (ag.research pr).content,
        (ag.epic pr (ag.research pr).content "" 0).content, "", "", "", "",
        "epics", "", 0, 0, 0⟩,
       ⟨⟨rid, RunStatus.running, "epics", none⟩, pr,
        [⟨rid, ArtifactType.research, "research.md", (ag.research pr).content,
          (ag.research pr).metadata⟩,
         ⟨rid, ArtifactType.epics, "epics.md",
          (ag.epic pr (ag.research pr).content "" 0).content,
          (ag.epic pr (ag.research pr).content "" 0).metadata⟩],
        [⟨rid, "epics", none, none, "proceed"⟩],
        [⟨rid, "research", "Research phase started"⟩,
         ⟨rid, "research", "Research phase completed"⟩,
         ⟨rid, "epics", "Epic generation started"⟩,
         ⟨rid, "epics", "Epic generation completed"⟩]⟩) := by
    rw [epics_node_success_noapproval ag
      (⟨rid, pr, (ag.research pr).content, "", "", "", "", "", "research", "",
        0, 0, 0⟩ : WorkflowState)
      (⟨⟨rid, RunStatus.running, "research", none⟩, pr,
       [⟨rid, ArtifactType.research, "research.md", (ag.research pr).content,
         (ag.research pr).metadata⟩], [],
       [⟨rid, "research", "Research phase started"⟩,
        ⟨rid, "research", "Research phase completed"⟩]⟩ : DB)
      rfl (he pr (ag.research pr).content "" 0)]
    simp [emit_progress, updateRunStage, save_artifact,
      create_or_update_approval, cuApprovals, findApproval]
  have h3 : wait_epic_approval_node
      (⟨rid, pr, (ag.research pr).content,
        (ag.epic pr (ag.research pr).content "" 0).content, "", "", "", "",
        "epics", "", 0, 0, 0⟩ : WorkflowState)
      ⟨⟨rid, RunStatus.running, "epics", none⟩, pr,
       [⟨rid, ArtifactType.research, "research.md", (ag.research pr).content,
         (ag.research pr).metadata⟩,
        ⟨rid, ArtifactType.epics, "epics.md",
         (ag.epic pr (ag.research pr).content "" 0).content,
         (ag.epic pr (ag.research pr).content "" 0).metadata⟩],
       [⟨rid, "epics", none, none, "proceed"⟩],
       [⟨rid, "research", "Research phase started"⟩,
        ⟨rid, "research", "Research phase completed"⟩,
        ⟨rid, "epics", "Epic generation started"⟩,
        ⟨rid, "epics", "Epic generation completed"⟩]⟩ =
      (⟨rid, pr, (ag.research pr).content,
        (ag.epic pr (ag.research pr).content "" 0).content, "", "", "", "",
        "waiting_epic_approval", "", 0, 0, 0⟩,
       ⟨⟨rid, RunStatus.paused, "waiting_epic_approval", none⟩, pr,
        [⟨rid, ArtifactType.research, "research.md", (ag.research pr).content,
          (ag.research pr).metadata⟩,
         ⟨rid, ArtifactType.epics, "epics.md",
          (ag.epic pr (ag.research pr).content "" 0).content,
          (ag.epic pr (ag.research pr).content "" 0).metadata⟩],
        [⟨rid, "epics", none, none, "proceed"⟩],
        [⟨rid, "research", "Research phase started"⟩,
         ⟨rid, "research", "Research phase completed"⟩,
         ⟨rid, "epics", "Epic generation started"⟩,
         ⟨rid, "epics", "Epic generation completed"⟩,
         ⟨rid, "waiting_epic_approval", "Waiting for epic approval"⟩]⟩) := by
    rw [wait_epic_approval_node_eq]
    simp [emit_progress, updateRunStageStatus]
  have hchk : check_approval
      (⟨rid, pr, (ag.research pr).content,
        (ag.epic pr (ag.research pr).content "" 0).content, "", "", "", "",
        "waiting_epic_approval", "", 0, 0, 0⟩ : WorkflowState)
      ⟨⟨rid, RunStatus.paused, "waiting_epic_approval", none⟩, pr,
       [⟨rid, ArtifactType.research, "research.md", (ag.research pr).content,
         (ag.research pr).metadata⟩,
        ⟨rid, ArtifactType.epics, "epics.md",
         (ag.epic pr (ag.research pr).content "" 0).content,
         (ag.epic pr (ag.research pr).content "" 0).metadata⟩],
       [⟨rid, "epics", none, none, "proceed"⟩],
       [⟨rid, "research", "Research phase started"⟩,
        ⟨rid, "research", "Research phase completed"⟩,
        ⟨rid, "epics", "Epic generation started"⟩,
        ⟨rid, "epics", "Epic generation completed"⟩,
        ⟨rid, "waiting_epic_approval", "Waiting for epic approval"⟩]⟩ =
      "pending" := by
    apply check_approval_wait_epic_pending _ _ ⟨rid, "epics", none, none, "proceed"⟩
      rfl _ rfl
    simp [findApproval]
  have hrun : runGraph ag workflowFuel "research_phase" (initialState rid pr)
      ⟨⟨rid, RunStatus.running, "research", none⟩, pr, [], [], []⟩ =
      (⟨rid, pr, (ag.research pr).content,
        (ag.epic pr (ag.research pr).content "" 0).content, "", "", "", "",
        "waiting_epic_approval", "", 0, 0, 0⟩,
       ⟨⟨rid, RunStatus.paused, "waiting_epic_approval", none⟩, pr,
        [⟨rid, ArtifactType.research, "research.md", (ag.research pr).content,
          (ag.research pr).metadata⟩,
         ⟨rid, ArtifactType.epics, "epics.md",
          (ag.epic pr (ag.research pr).content "" 0).content,
          (ag.epic pr (ag.research pr).content "" 0).metadata⟩],
        [⟨rid, "epics", none, none, "proceed"⟩],
        [⟨rid, "research", "Research phase started"⟩,
         ⟨rid, "research", "Research phase completed"⟩,
         ⟨rid, "epics", "Epic generation started"⟩,
         ⟨rid, "epics", "Epic generation completed"⟩,
         ⟨rid, "waiting_epic_approval", "Waiting for epic approval"⟩]⟩) := by
    rw [show workflowFuel = 31 + 1 from rfl, runGraph_succ]
    simp [h1]
    rw [show (31 : Nat) = 30 + 1 from rfl, runGraph_succ]
    simp [h2]
    rw [show (30 : Nat) = 29 + 1 from rfl, runGraph_succ]
    simp [h3, hchk]
  have hfinal : execute_run ag rid pr (freshDB rid pr) =
      (⟨rid, pr, (ag.research pr).content,
        (ag.epic pr (ag.research pr).content "" 0).content, "", "", "", "",
        "waiting_epic_approval", "", 0, 0, 0⟩,
       ⟨⟨rid, RunStatus.paused, "waiting_epic_approval", none⟩, pr,
        [⟨rid, ArtifactType.research, "research.md", (ag.research pr).content,
          (ag.research pr).metadata⟩,
         ⟨rid, ArtifactType.epics, "epics.md",
          (ag.epic pr (ag.research pr).content "" 0).content,
          (ag.epic pr (ag.research pr).content "" 0).metadata⟩],
        [⟨rid, "epics", none, none, "proceed"⟩],
        [⟨rid, "research", "Research phase started"⟩,
         ⟨rid, "research", "Research phase completed"⟩,
         ⟨rid, "epics", "Epic generation started"⟩,
         ⟨rid, "epics", "Epic generation completed"⟩,
         ⟨rid, "waiting_epic_approval", "Waiting for epic approval"⟩]⟩) := by
    have hdb0 : updateRunStageStatus (freshDB rid pr) rid "research"
        RunStatus.running =
        ⟨⟨rid, RunStatus.running, "research", none⟩, pr, [], [], []⟩ := by
      simp [updateRunStageStatus, freshDB]
    simp only [execute_run]
    rw [hdb0, hrun]
    simp
  rw [hfinal]
  refine ⟨rfl, rfl, ?_, ?_, rfl, ?_, ?_⟩
  · simp [countArtifacts]
  · simp [countArtifacts]
  · simp [approvalKeyCount]
  · simp [findApproval]

/-- Witness for the amended C8 at the all-succeeding executors. -/
theorem C8_amended_witness :
    (execute_run okAgents 1 "Build a todo app"
        (freshDB 1 "Build a todo app")).2.run.status = RunStatus.paused ∧
    (execute_run okAgents 1 "Build a todo app"
        (freshDB 1 "Build a todo app")).2.run.current_stage =
      "waiting_epic_approval" ∧
    countArtifacts (execute_run okAgents 1 "Build a todo app"
        (freshDB 1 "Build a todo app")).2 1 ArtifactType.research = 1 ∧
    countArtifacts (execute_run okAgents 1 "Build a todo app"
        (freshDB 1 "Build a todo app")).2 1 ArtifactType.epics = 1 ∧
    (execute_run okAgents 1 "Build a todo app"
        (freshDB 1 "Build a todo app")).2.artifacts.length = 2 ∧
    approvalKeyCount (execute_run okAgents 1 "Build a todo app"
        (freshDB 1 "Build a todo app")).2.approvals 1 "epics" = 1 ∧
    findApproval (execute_run okAgents 1 "Build a todo app"
        (freshDB 1 "Build a todo app")).2.approvals 1 "epics" =
      some ⟨1, "epics", none, none, "proceed"⟩ :=
  C8_amended_scenario_A okAgents 1 "Build a todo app"
    (fun _ => rfl) (fun _ _ _ _ => rfl)

end Orchestration
